import Mathlib

/-! # disk2iso web console: a shallow embedding of the browser scripts

The scripts under `www/static/js` and `services/disk2iso-web/static/js` are
embedded as pure functions over an explicit page state.  An `async` function
becomes a function of the state and of the outcome of its single `fetch`
(network failure, unparsable body, or the parsed JSON object).  DOM elements
looked up by id are fields of type `Option _`; `none` is "no such element".

Numbers: durations and indices are integers below `2^53`, where the
JavaScript operations used here (`/` followed by `Math.floor`, `%`, `===`)
agree with the integer operations of `Nat` and `Int`.
-/

namespace Disk2iso

/-! ## JavaScript string helpers -/

/-- Decimal rendering of a non-negative integer, `Number.prototype.toString`. -/
def numToString (n : Nat) : String := Nat.repr n

/-- The filler of `String.prototype.padStart`: `pad` repeated and truncated to `k` chars. -/
def padFiller (pad : List Char) (k : Nat) : List Char :=
  ((List.replicate k pad).flatten).take k

/-- The method `String.prototype.padStart (targetLength, padString)`. -/
def padStart (s : String) (targetLength : Nat) (padString : String) : String :=
  if targetLength ≤ s.length ∨ padString.data = [] then s
  else String.mk (padFiller padString.data (targetLength - s.length) ++ s.data)

/-- ECMAScript `WhiteSpace` and `LineTerminator` code points, the ones `trim` strips. -/
def isJsWhitespace (c : Char) : Bool :=
  c.val = 0x09 || c.val = 0x0A || c.val = 0x0B || c.val = 0x0C || c.val = 0x0D ||
  c.val = 0x20 || c.val = 0xA0 || c.val = 0x1680 ||
  (0x2000 ≤ c.val && c.val ≤ 0x200A) ||
  c.val = 0x2028 || c.val = 0x2029 || c.val = 0x202F || c.val = 0x205F ||
  c.val = 0x3000 || c.val = 0xFEFF

/-- The method `String.prototype.trim`. -/
def jsTrim (s : String) : String :=
  String.mk ((s.data.dropWhile isJsWhitespace).reverse.dropWhile isJsWhitespace).reverse

/-! ## musicbrainz.js: duration formatting (lines 69-81 of `showMusicBrainzModal`) -/

/-- The `durationStr` computed for a release; `none` is an absent `duration`. -/
def durationStr (duration : Option Nat) : String :=
  match duration with
  | none => ""
  | some d =>
    if d = 0 then ""
    else
      let totalSeconds := d / 1000
      let hours := totalSeconds / 3600
      let minutes := (totalSeconds % 3600) / 60
      let seconds := totalSeconds % 60
      if hours > 0 then
        padStart (numToString hours) 2 "0" ++ ":" ++ padStart (numToString minutes) 2 "0"
          ++ ":" ++ padStart (numToString seconds) 2 "0"
      else
        padStart (numToString minutes) 2 "0" ++ ":" ++ padStart (numToString seconds) 2 "0"

/-! ### Reading a duration string back as colon-separated fields -/

/-- The fields of a text separated by `:`. -/
def colonFields : List Char → List (List Char)
  | [] => [[]]
  | c :: cs =>
    if c = ':' then [] :: colonFields cs
    else
      match colonFields cs with
      | [] => [[c]]
      | f :: fs => (c :: f) :: fs

/-- The expression `a || b` on an optional text: `undefined`, `null` and the empty text are
falsy. -/
def strOr (a : Option String) (b : String) : String :=
  match a with
  | some x => if x = "" then b else x
  | none => b

/-- Text of an optional value inside a string concatenation. -/
def strOfOpt (a : Option String) : String :=
  match a with
  | some x => x
  | none => "undefined"

/-- The function `escapeHtml`: the text is serialised as the `innerHTML` of a text node. -/
def escapeHtml (text : String) : String :=
  String.mk (text.data.flatMap fun c =>
    if c = '&' then "&amp;".data
    else if c = '<' then "&lt;".data
    else if c = '>' then "&gt;".data
    else [c])

/-- A release candidate of the `/api/musicbrainz/releases` payload. -/
structure Release where
  id : Option String
  title : Option String
  artist : Option String
  date : Option String
  country : Option String
  tracks : Option Nat
  duration : Option Nat
deriving DecidableEq, Repr

/-- A `div.release-item` built by `showMusicBrainzModal`, with its radio input. -/
structure ReleaseItem where
  classList : List String
  index : Nat
  checked : Bool
  coverUrl : Option String
  titleHtml : String
  artistHtml : String
  detailsHtml : String
deriving DecidableEq, Repr

/-- The children of `#mb-releases-list`: the release items and the confirm button. -/
structure ReleaseList where
  items : List ReleaseItem
  confirmBtn : Bool
deriving DecidableEq, Repr

/-- A `div.notification` appended to the body by `showNotification`. -/
structure Notification where
  className : String
  textContent : String
  background : String
deriving DecidableEq, Repr

/-- The JSON body of a request. -/
inductive Body
  | selectIndex (index : Int)
  | manual (artist album year : String)
  | configValue (value : String)
deriving DecidableEq, Repr

/-- A call of `fetch`. -/
structure Request where
  url : String
  method : String
  body : Option Body
deriving DecidableEq, Repr

/-- The module-level variables of musicbrainz.js and the part of the page it touches.
`modal` is the `style.display` of `#musicbrainz-modal`, `messageEl` the text of
`#mb-message`, `listEl` the content of `#mb-releases-list`; `notifications` are the
elements appended by `showNotification`, `requests` the calls of `fetch`, and
`refreshTimers` the delays of the pending `updateStatus` timeouts. -/
structure MBState where
  currentReleases : List Release
  selectedIndex : Int
  mbCheckInterval : Bool
  modal : Option String
  messageEl : Option String
  listEl : Option ReleaseList
  notifications : List Notification
  requests : List Request
  refreshTimers : List Nat
deriving DecidableEq, Repr

/-- The JSON object answered by `/api/musicbrainz/releases`. -/
structure StatusPayload where
  status : String
  releases : Option (List Release)
  selected_index : Option Int
  message : Option String
deriving DecidableEq, Repr

/-- What `fetch('/api/musicbrainz/releases')` and `response.json()` come to. -/
inductive PollOutcome
  | networkError
  | notFound
  | badJson
  | json (data : StatusPayload)
deriving DecidableEq, Repr

/-- The JSON object answered by the two POST endpoints. -/
structure SubmitResult where
  success : Bool
  message : Option String
deriving DecidableEq, Repr

/-- What a POST and `response.json()` come to. -/
inductive SubmitOutcome
  | networkError
  | badJson
  | json (result : SubmitResult)
deriving DecidableEq, Repr

/-- The method `DOMTokenList.add`. -/
def classListAdd (cl : List String) (tok : String) : List String :=
  if tok ∈ cl then cl else cl ++ [tok]

/-- The method `DOMTokenList.remove`. -/
def classListRemove (cl : List String) (tok : String) : List String :=
  cl.filter fun t => t ≠ tok

/-- Apply `f` to the element at position `i`. -/
def updateAt {α : Type} (f : α → α) : Nat → List α → List α
  | _, [] => []
  | 0, x :: xs => f x :: xs
  | n + 1, x :: xs => x :: updateAt f n xs

/-- The function `showNotification`. -/
def showNotification (s : MBState) (message : String) (type : String) : MBState :=
  { s with notifications := s.notifications ++
      [{ className := "notification notification-" ++ type
         textContent := message
         background :=
           if type = "success" then "#27ae60" else if type = "error" then "#e74c3c"
           else "#3498db" }] }

/-- The `div.release-item` built for `release` at position `index` (lines 63-105). -/
def renderItem (selectedIndex : Int) (index : Nat) (release : Release) : ReleaseItem :=
  let durationStr := durationStr release.duration
  { classList :=
      if (index : Int) = selectedIndex then classListAdd ["release-item"] "selected"
      else ["release-item"]
    index := index
    checked := decide ((index : Int) = selectedIndex)
    coverUrl :=
      match release.id with
      | some id => if id = "" then none else some ("/api/musicbrainz/cover/" ++ id)
      | none => none
    titleHtml := escapeHtml (strOr release.title "Unknown")
    artistHtml := escapeHtml (strOr release.artist "Unknown Artist")
    detailsHtml :=
      "<i>" ++ strOr release.date "Unknown" ++ " " ++
        (match release.country with
         | some c => if c ≠ "" ∧ c ≠ "unknown" then c else ""
         | none => "") ++ "</i> (" ++
        numToString (release.tracks.getD 0) ++ " Tracks" ++
        (if durationStr = "" then "" else " / " ++ durationStr) ++ ")" }

/-- The `forEach` over `currentReleases`, starting at position `index`. -/
def renderItems (selectedIndex : Int) : Nat → List Release → List ReleaseItem
  | _, [] => []
  | index, release :: rest =>
    renderItem selectedIndex index release :: renderItems selectedIndex (index + 1) rest

/-- The function `showMusicBrainzModal`. -/
def showMusicBrainzModal (s : MBState) (data : StatusPayload) : MBState :=
  match s.modal, s.listEl with
  | some _, some _ =>
    { s with
      messageEl := s.messageEl.map fun _ =>
        strOr data.message "Mehrere Alben gefunden. Bitte wählen Sie das richtige Album aus:"
      listEl := some { items := renderItems s.selectedIndex 0 s.currentReleases
                       confirmBtn := true }
      modal := some "flex" }
  | _, _ => s

/-- The step `el.classList.remove('selected')` on an element of
`document.querySelectorAll('.release-item')`; other elements are not selected by the query. -/
def clearSelected (el : ReleaseItem) : ReleaseItem :=
  if "release-item" ∈ el.classList then
    { el with classList := classListRemove el.classList "selected" }
  else el

/-- The step `releaseDiv.classList.add('selected')`. -/
def markSelected (el : ReleaseItem) : ReleaseItem :=
  { el with classList := classListAdd el.classList "selected" }

/-- The `change` listener of the radio input of the item at position `i` (lines 107-111):
`index` is the one the item was built with. -/
def changeHandler (s : MBState) (i : Nat) : MBState :=
  match s.listEl with
  | none => s
  | some l =>
    match l.items[i]? with
    | none => s
    | some releaseDiv =>
      { s with selectedIndex := releaseDiv.index
               listEl := some { l with items := updateAt markSelected i (l.items.map clearSelected) } }

/-- The radio group `name="release"`: checking the input at position `i` unchecks the rest. -/
def checkRadio : Nat → List ReleaseItem → List ReleaseItem
  | _, [] => []
  | 0, x :: xs => { x with checked := true } :: xs.map fun y => { y with checked := false }
  | n + 1, x :: xs => { x with checked := false } :: checkRadio n xs

/-- The user picks the entry at position `i`: the browser checks its radio input and then
dispatches `change` to its listener. -/
def userSelect (s : MBState) (i : Nat) : MBState :=
  match s.listEl with
  | none => s
  | some l =>
    if i < l.items.length then
      changeHandler { s with listEl := some { l with items := checkRadio i l.items } } i
    else s

/-- The part of `checkMusicBrainzStatus` after `await fetch(...)` (lines 26-41). -/
def pollReply (s : MBState) (o : PollOutcome) : MBState :=
  match o with
  | .networkError => s
  | .notFound => s
  | .badJson => s
  | .json data =>
    if data.status = "waiting_user_input" then
      showMusicBrainzModal
        { s with currentReleases := data.releases.getD []
                 selectedIndex :=
                   match data.selected_index with
                   | some k => if k = 0 then 0 else k
                   | none => 0 }
        data
    else s

/-- The guard of `checkMusicBrainzStatus` (lines 18-22): the modal is already open. -/
def modalIsOpen (s : MBState) : Bool := s.modal = some "flex"

/-- The call `fetch('/api/musicbrainz/releases')`. -/
def pollRequest (s : MBState) : MBState :=
  { s with requests := s.requests ++
      [{ url := "/api/musicbrainz/releases", method := "GET", body := none }] }

/-- The function `checkMusicBrainzStatus`, with `o` what the server would answer. -/
def checkMusicBrainzStatus (s : MBState) (o : PollOutcome) : MBState :=
  if modalIsOpen s then s else pollReply (pollRequest s) o

/-- The function `closeMusicBrainzModal`. -/
def closeMusicBrainzModal (s : MBState) : MBState :=
  { s with modal := s.modal.map fun _ => "none"
           mbCheckInterval := true }

/-- The function `confirmMusicBrainzSelection`. -/
def confirmMusicBrainzSelection (s : MBState) (o : SubmitOutcome) : MBState :=
  let s1 := { s with requests := s.requests ++
    [{ url := "/api/musicbrainz/select", method := "POST"
       body := some (.selectIndex s.selectedIndex) }] }
  match o with
  | .networkError => showNotification s1 "Fehler beim Bestätigen der Auswahl" "error"
  | .badJson => showNotification s1 "Fehler beim Bestätigen der Auswahl" "error"
  | .json result =>
    if result.success then
      let s2 := showNotification (closeMusicBrainzModal s1)
        "Album ausgewählt. Kopiervorgang wird fortgesetzt..." "success"
      { s2 with refreshTimers := s2.refreshTimers ++ [2000] }
    else
      showNotification s1 ("Fehler beim Speichern: " ++ strOfOpt result.message) "error"

/-- The function `submitManualMetadata`; the three arguments are the `value` of the fields
`manual-artist`, `manual-album`, `manual-year`, `none` for a field that is not on the page
(reading `.value` then throws and nothing else happens). -/
def submitManualMetadata (s : MBState) (artistField albumField yearField : Option String)
    (o : SubmitOutcome) : MBState :=
  match artistField, albumField, yearField with
  | some a, some b, some y =>
    let artist := jsTrim a
    let album := jsTrim b
    let year := jsTrim y
    if artist = "" ∨ album = "" ∨ year = "" then
      showNotification s "Bitte füllen Sie alle Felder aus" "warning"
    else
      let s1 := { s with requests := s.requests ++
        [{ url := "/api/musicbrainz/manual", method := "POST"
           body := some (.manual artist album year) }] }
      match o with
      | .networkError => showNotification s1 "Fehler beim Speichern der Metadaten" "error"
      | .badJson => showNotification s1 "Fehler beim Speichern der Metadaten" "error"
      | .json result =>
        if result.success then
          let s2 := showNotification (closeMusicBrainzModal s1)
            "Metadaten gespeichert. Kopiervorgang wird fortgesetzt..." "success"
          { s2 with refreshTimers := s2.refreshTimers ++ [2000] }
        else
          showNotification s1 ("Fehler beim Speichern: " ++ strOfOpt result.message) "error"
  | _, _, _ => s

/-- The page right after the script has run: the variables as initialised on lines 8-10 and
260, no release item yet; the arguments are what the static page holds. -/
def mbInit (modal messageEl : Option String) (hasList : Bool) : MBState :=
  { currentReleases := []
    selectedIndex := 0
    mbCheckInterval := true
    modal := modal
    messageEl := messageEl
    listEl := if hasList then some { items := [], confirmBtn := false } else none
    notifications := []
    requests := []
    refreshTimers := [] }

/-- What can happen to the page.  A poll is a `tick` (the guard, then the request) followed,
once the answer is there, by a `reply`; other events may come in between, and the model lets
a `reply` come at any time. -/
inductive MBEvent
  | tick
  | reply (o : PollOutcome)
  | select (i : Nat)
  | confirm (o : SubmitOutcome)
  | manual (artistField albumField yearField : Option String) (o : SubmitOutcome)
  | close
deriving DecidableEq, Repr

/-- One event. -/
def mbStep (s : MBState) : MBEvent → MBState
  | .tick => if modalIsOpen s then s else pollRequest s
  | .reply o => pollReply s o
  | .select i => userSelect s i
  | .confirm o => confirmMusicBrainzSelection s o
  | .manual a b y o => submitManualMetadata s a b y o
  | .close => closeMusicBrainzModal s

/-- The page after a sequence of events. -/
def mbRun (s : MBState) (events : List MBEvent) : MBState :=
  events.foldl mbStep s

/-- The number of items carrying the class `selected`. -/
def selectedCount (items : List ReleaseItem) : Nat :=
  items.countP fun el => "selected" ∈ el.classList

/-- The `selected_index` of the most recent "waiting for input" payload among the events,
`none` when no such payload came. -/
def lastWaitingIndex : List MBEvent → Option (Option Int)
  | [] => none
  | e :: rest =>
    match lastWaitingIndex rest with
    | some r => some r
    | none =>
      match e with
      | .reply (.json data) =>
        if data.status = "waiting_user_input" then some data.selected_index else none
      | _ => none

/-- The index suggested by the server: the `selected_index` of the most recent "waiting for
input" payload, `0` when it carries none or none came. -/
def suggestedIndex (events : List MBEvent) : Int :=
  match lastWaitingIndex events with
  | some (some k) => k
  | _ => 0

/-- The rendered list matches the module variables: without a modal element nothing was
rendered, and the item at position `k` was built with index `k`, carries the class
`release-item`, and `k` is a position of `currentReleases`. -/
def WellRendered (s : MBState) : Prop :=
  (s.modal = none → ∀ l, s.listEl = some l → l.items = []) ∧
  ∀ l, s.listEl = some l → ∀ k it, l.items[k]? = some it →
    it.index = k ∧ "release-item" ∈ it.classList ∧ k < s.currentReleases.length

/-- Two release candidates, for the examples. -/
def sampleReleases : List Release :=
  [ { id := some "r1", title := some "Album", artist := some "Artist", date := some "1999"
      country := some "DE", tracks := some 12, duration := some 3725000 },
    { id := none, title := some "Single", artist := none, date := none
      country := some "unknown", tracks := some 2, duration := some 125000 } ]

/-- A "waiting for input" payload with two candidates. -/
def samplePayload : StatusPayload :=
  { status := "waiting_user_input", releases := some sampleReleases
    selected_index := some 0, message := none }

/-- A page with the three elements, the modal hidden. -/
def samplePage : MBState := mbInit (some "none") (some "") true

/-- The sample page after a poll has opened the modal and the user picked the second entry. -/
def samplePageOpen : MBState :=
  mbRun samplePage [.tick, .reply (.json samplePayload), .select 1]

/-- The variable `selectedIndex` is a position of `currentReleases`. -/
def validIndex (s : MBState) : Prop :=
  0 ≤ s.selectedIndex ∧ s.selectedIndex < s.currentReleases.length

/-- The suggested index after `events`, starting from a suggested index `g`. -/
def suggestedFrom (g : Int) (events : List MBEvent) : Int :=
  match lastWaitingIndex events with
  | some (some k) => k
  | some none => 0
  | none => g

/-- A server answer refusing the selection, with a message. -/
def sampleRefusal : SubmitResult := { success := false, message := some "Kein Album" }

/-- A server answer accepting the selection. -/
def sampleAccept : SubmitResult := { success := true, message := none }

/-! ## store.js -/

/-- The state of a module in `catalog.modules`. -/
structure ModuleState where
  enabled : Bool
  required : Bool
deriving DecidableEq, Repr

/-- A category descriptor of `catalog.categories`. -/
structure CategoryDesc where
  id : String
  name : Option String
  name_de : Option String
deriving DecidableEq, Repr

/-- The catalog of `/api/store/catalog`; `modules` is the object as listed by
`Object.entries`, `none` stands for a missing member. -/
structure Catalog where
  categories : Option (List CategoryDesc)
  modules : Option (List (String × ModuleState))
deriving DecidableEq, Repr

/-- A button of the card footer; `onclick` is the called function and its argument. -/
structure Button where
  className : String
  disabled : Bool
  onclick : Option (String × String)
  label : String
deriving DecidableEq, Repr

/-- A `div.module-card` built by `createModuleCard`. -/
structure ModuleCard where
  moduleId : String
  iconSrc : String
  name : String
  statusClass : String
  statusText : String
  description : String
  version : String
  actions : List Button
deriving DecidableEq, Repr

/-- A child of a category container. -/
inductive StoreNode
  | static (html : String)
  | errorMessage (message : String)
  | noModules
  | card (c : ModuleCard)
deriving DecidableEq, Repr

/-- A category title element: its first `img`, if any, and the text set after it. -/
structure TitleEl where
  icon : Option String
  text : String
deriving DecidableEq, Repr

/-- The variable `catalogData` and the part of the store page the script touches: the title
elements by element id, and the content of the three containers `core-modules-container`,
`optional-modules-container`, `providers-modules-container`. -/
structure StorePage where
  catalogData : Option Catalog
  titles : List (String × TitleEl)
  coreContainer : Option (List StoreNode)
  optionalContainer : Option (List StoreNode)
  providersContainer : Option (List StoreNode)
deriving DecidableEq, Repr

/-- The body answered by `/api/store/catalog`. -/
structure CatalogResponse where
  success : Bool
  catalog : Option Catalog
  error : Option String
deriving DecidableEq, Repr

/-- What `fetch('/api/store/catalog')` and `response.json()` come to. -/
inductive CatalogOutcome
  | networkError
  | badJson
  | json (data : CatalogResponse)
deriving DecidableEq, Repr

/-- The element with id `categoryId ++ "-modules-container"`. -/
def getContainer (p : StorePage) (categoryId : String) : Option (List StoreNode) :=
  if categoryId = "core" then p.coreContainer
  else if categoryId = "optional" then p.optionalContainer
  else if categoryId = "providers" then p.providersContainer
  else none

/-- Assign the `innerHTML` of the container of `categoryId`. -/
def setContainer (p : StorePage) (categoryId : String) (content : List StoreNode) : StorePage :=
  if categoryId = "core" then { p with coreContainer := p.coreContainer.map fun _ => content }
  else if categoryId = "optional" then
    { p with optionalContainer := p.optionalContainer.map fun _ => content }
  else if categoryId = "providers" then
    { p with providersContainer := p.providersContainer.map fun _ => content }
  else p

/-- The function `showError`. -/
def showError (p : StorePage) (message : String) : StorePage :=
  { p with
    coreContainer := p.coreContainer.map fun _ => [.errorMessage message]
    optionalContainer := p.optionalContainer.map fun _ => [.errorMessage message]
    providersContainer := p.providersContainer.map fun _ => [.errorMessage message] }

/-- The function `getModuleIcon`. -/
def getModuleIcon (moduleId : String) : String :=
  if moduleId = "core" then "/static/img/control.svg"
  else if moduleId = "audio" then "/static/img/audio.svg"
  else if moduleId = "dvd" then "/static/img/dvd.svg"
  else if moduleId = "bluray" then "/static/img/bluray.svg"
  else if moduleId = "metadata" then "/static/img/data.svg"
  else if moduleId = "mqtt" then "/static/img/plugin.svg"
  else if moduleId = "musicbrainz" then "/static/img/data.svg"
  else if moduleId = "tmdb" then "/static/img/data.svg"
  else "/static/img/package.svg"

/-- The function `getModuleName`. -/
def getModuleName (moduleId : String) : String :=
  if moduleId = "core" then "disk2iso Core"
  else if moduleId = "audio" then "Audio-CD Modul"
  else if moduleId = "dvd" then "DVD-Video Modul"
  else if moduleId = "bluray" then "Blu-ray Modul"
  else if moduleId = "metadata" then "Metadata Modul"
  else if moduleId = "mqtt" then "MQTT Integration"
  else if moduleId = "musicbrainz" then "MusicBrainz Provider"
  else if moduleId = "tmdb" then "TMDB Provider"
  else moduleId

/-- The function `getModuleDescription`. -/
def getModuleDescription (moduleId : String) : String :=
  if moduleId = "core" then "Hauptsystem mit Web-UI und Basis-Funktionalität"
  else if moduleId = "audio" then "Rippen von Audio-CDs mit MusicBrainz-Integration"
  else if moduleId = "dvd" then "Kopieren von DVD-Video Discs mit Menü-Unterstützung"
  else if moduleId = "bluray" then "Kopieren von Blu-ray Discs"
  else if moduleId = "metadata" then "Erweiterte Metadaten-Verwaltung und Cover-Art"
  else if moduleId = "mqtt" then "MQTT-Integration für Home Assistant"
  else if moduleId = "musicbrainz" then "MusicBrainz Metadaten für Audio-CDs"
  else if moduleId = "tmdb" then "TMDB Metadaten für Filme und Serien"
  else "Keine Beschreibung verfügbar"

/-- The function `getModuleVersion`. -/
def getModuleVersion (_moduleId : String) : String := "1.3.0"

/-- The function `createModuleActions`. -/
def createModuleActions (moduleId : String) (moduleData : ModuleState) : List Button :=
  if moduleData.required then
    [{ className := "btn-secondary", disabled := true, onclick := none, label := "Core-Modul" }]
  else if moduleData.enabled then
    [{ className := "btn-secondary", disabled := false
       onclick := some ("viewModuleDetails", moduleId), label := "Details" },
     { className := "btn-warning", disabled := false
       onclick := some ("disableModule", moduleId), label := "Deaktivieren" }]
  else
    [{ className := "btn-primary", disabled := false
       onclick := some ("installModule", moduleId), label := "Installieren" },
     { className := "btn-secondary", disabled := false
       onclick := some ("viewModuleDetails", moduleId), label := "Details" }]

/-- The function `createModuleCard`. -/
def createModuleCard (moduleId : String) (moduleData : ModuleState) : ModuleCard :=
  let isInstalled := moduleData.enabled
  let isRequired := moduleData.required
  { moduleId := moduleId
    iconSrc := getModuleIcon moduleId
    name := getModuleName moduleId
    statusClass := if isInstalled then "installed" else "available"
    statusText := if isRequired then "Core" else if isInstalled then "Installiert" else "Verfügbar"
    description := getModuleDescription moduleId
    version := getModuleVersion moduleId
    actions := createModuleActions moduleId moduleData }

/-- The filter of `renderModulesByCategory` (lines 83-89): the category of a module is
decided by its identifier. -/
def inCategory (categoryId moduleId : String) : Bool :=
  if categoryId = "core" ∧ moduleId = "core" then true
  else if categoryId = "optional" ∧ moduleId ∈ ["audio", "dvd", "bluray", "metadata", "mqtt"] then
    true
  else if categoryId = "providers" ∧ moduleId ∈ ["musicbrainz", "tmdb"] then true
  else false

/-- The content `renderModulesByCategory` gives a container (lines 83-100): a card for
each entry the filter keeps, or the "no modules" paragraph when it keeps none. -/
def categoryContent (categoryId : String) (entries : List (String × ModuleState)) :
    List StoreNode :=
  let modules := entries.filter fun e => inCategory categoryId e.1
  if modules.length = 0 then [.noModules]
  else modules.map fun e => .card (createModuleCard e.1 e.2)

/-- The function `renderModulesByCategory`; `.error` is the page at the moment a `TypeError`
is thrown (no catalog, or a catalog without `modules`). -/
def renderModulesByCategory (p : StorePage) (categoryId : String) : Except StorePage StorePage :=
  match getContainer p categoryId with
  | none => .ok p
  | some _ =>
    let p1 := setContainer p categoryId []
    match p.catalogData with
    | none => .error p1
    | some catalog =>
      match catalog.modules with
      | none => .error p1
      | some entries => .ok (setContainer p1 categoryId (categoryContent categoryId entries))

/-- Set the text of the first element with id `elementId`. -/
def setTitle (elementId : String) (text : String) : List (String × TitleEl) →
    List (String × TitleEl)
  | [] => []
  | (k, el) :: rest =>
    if k = elementId then (k, { el with text := text }) :: rest
    else (k, el) :: setTitle elementId text rest

/-- The text `category[name_de] || category.name` put after the icon. -/
def categoryTitle (category : CategoryDesc) : String :=
  match category.name_de with
  | some n => if n = "" then strOfOpt category.name else n
  | none => strOfOpt category.name

/-- The function `updateCategoryTitles`; `.error` when `categories` is missing. -/
def updateCategoryTitles (p : StorePage) (catalog : Catalog) : Except StorePage StorePage :=
  match catalog.categories with
  | none => .error p
  | some categories =>
    .ok (categories.foldl (fun q category =>
      { q with titles :=
          setTitle (category.id ++ "-category-title") (categoryTitle category) q.titles }) p)

/-- The function `renderStore`. -/
def renderStore (p : StorePage) : Except StorePage StorePage :=
  match p.catalogData with
  | none => .ok p
  | some catalog => do
    let p1 ← updateCategoryTitles p catalog
    let p2 ← renderModulesByCategory p1 "core"
    let p3 ← renderModulesByCategory p2 "optional"
    renderModulesByCategory p3 "providers"

/-- The function `loadStoreCatalog`. -/
def loadStoreCatalog (p : StorePage) (o : CatalogOutcome) : StorePage :=
  match o with
  | .networkError => showError p "Katalog konnte nicht geladen werden"
  | .badJson => showError p "Katalog konnte nicht geladen werden"
  | .json data =>
    if data.success then
      match renderStore { p with catalogData := data.catalog } with
      | .ok p1 => p1
      | .error p1 => showError p1 "Katalog konnte nicht geladen werden"
    else showError p "Fehler beim Laden des Katalogs"

/-- The number of cards for module `moduleId` in a container. -/
def cardCount (moduleId : String) (content : Option (List StoreNode)) : Nat :=
  (content.getD []).countP fun n =>
    match n with
    | .card c => c.moduleId = moduleId
    | _ => false

/-- The number of module cards in a container. -/
def cardTotal (content : Option (List StoreNode)) : Nat :=
  (content.getD []).countP fun n =>
    match n with
    | .card _ => true
    | _ => false

/-- The identifiers the filter of `renderModulesByCategory` knows. -/
def knownModuleIds : List String :=
  ["core", "audio", "dvd", "bluray", "metadata", "mqtt", "musicbrainz", "tmdb"]

/-- A store page with the three containers holding a placeholder. -/
def sampleStorePage : StorePage :=
  { catalogData := none
    titles := [("core-category-title", { icon := some "<img src=\"c.svg\">", text := "Core" })]
    coreContainer := some [.static "..."]
    optionalContainer := some [.static "..."]
    providersContainer := some [.static "..."] }

/-- A catalog with a known module, and one the filter does not know. -/
def sampleCatalog : Catalog :=
  { categories := some [{ id := "core", name := some "Core", name_de := some "Kern" }]
    modules := some [("core", { enabled := true, required := true }),
                     ("audio", { enabled := false, required := false }),
                     ("vinyl", { enabled := true, required := false })] }


/-! ## config-api.js -/

/-- The body answered by `/api/config/{key}`; a missing flag is `false`. -/
structure ConfigResponse where
  success : Bool
  value : Option String
  message : Option String
  restart_required : Bool
  restart_failed : Bool
  restart_service : Option String
deriving DecidableEq, Repr

/-- What `fetch` and `response.json()` come to; a failure carries the text of its error. -/
inductive ConfigOutcome
  | networkError (message : String)
  | badJson (message : String)
  | json (data : ConfigResponse)
deriving DecidableEq, Repr

/-- A `div.toast` built by `showToast`. -/
structure Toast where
  className : String
  background : String
  textContent : String
deriving DecidableEq, Repr

/-- The part of the page config-api.js touches: the children of `#toast-container`
(`none` while the container does not exist) and the calls of `fetch`. -/
structure ConfigPage where
  toastContainer : Option (List Toast)
  requests : List Request
deriving DecidableEq, Repr

/-- The toast element built on lines 140-151. -/
def toastOf (message : String) (type : String) : Toast :=
  { className := "toast toast-" ++ type
    background :=
      if type = "success" then "#28a745" else if type = "error" then "#dc3545"
      else if type = "warning" then "#ffc107" else "#17a2b8"
    textContent := message }

/-- The function `showToast`: the container is created when missing. -/
def showToast (p : ConfigPage) (message : String) (type : String) : ConfigPage :=
  { p with toastContainer := some (p.toastContainer.getD [] ++ [toastOf message type]) }

/-- The toasts on the page. -/
def toasts (p : ConfigPage) : List Toast := p.toastContainer.getD []

/-- The function `setConfigValue`: the page afterwards, and the returned response or the
text of the error thrown. -/
def setConfigValue (p : ConfigPage) (key : String) (value : String) (o : ConfigOutcome) :
    ConfigPage × Except String ConfigResponse :=
  let p1 := { p with requests := p.requests ++
    [{ url := "/api/config/" ++ key, method := "PUT", body := some (.configValue value) }] }
  let fail (message : String) : ConfigPage × Except String ConfigResponse :=
    (showToast p1 ("Fehler beim Speichern: " ++ message) "error", .error message)
  match o with
  | .networkError message => fail message
  | .badJson message => fail message
  | .json data =>
    if data.success then
      if data.restart_required then
        if data.restart_failed then
          (showToast p1 "Gespeichert, aber Service-Neustart fehlgeschlagen" "warning", .ok data)
        else
          (showToast p1 ("Gespeichert (" ++ strOfOpt data.restart_service ++ " neu gestartet)")
            "success", .ok data)
      else
        (showToast p1 "Gespeichert" "success", .ok data)
    else fail (strOr data.message "Failed to write config")

/-- A page without toast container. -/
def sampleConfigPage : ConfigPage := { toastContainer := none, requests := [] }

/-- A successful write after which the restart of the service failed. -/
def sampleRestartFailed : ConfigResponse :=
  { success := true, value := none, message := none
    restart_required := true, restart_failed := true, restart_service := some "disk2iso" }

/-- A successful write that needs no restart. -/
def sampleNoRestart : ConfigResponse :=
  { success := true, value := none, message := none
    restart_required := false, restart_failed := false, restart_service := none }

/-! ## widgets/systeminfo_widget_4x1_dependencies.js -/

/-- An entry of the `software` list of `/api/system`. -/
structure Software where
  name : String
  installed_version : Option String
deriving DecidableEq, Repr

/-- The body answered by `/api/system`. -/
structure SystemResponse where
  success : Bool
  software : Option (List Software)
deriving DecidableEq, Repr

/-- What `fetch('/api/system')` and `response.json()` come to. -/
inductive SystemOutcome
  | networkError
  | badJson
  | json (data : SystemResponse)
deriving DecidableEq, Repr

/-- A row of `#systeminfo-dependencies-tbody`: a row of the static page, a message cell
spanning `colspan` columns, or the row of a tool. -/
inductive DepRow
  | static (html : String)
  | message (colspan : Nat) (color : String) (text : String)
  | tool (rowClass : String) (displayName : String) (versionHtml : String) (badge : String)
deriving DecidableEq, Repr

/-- The row written by `showSystemInfoDependenciesError`. -/
def errorRow : DepRow := .message 3 "#e53e3e" "Fehler beim Laden"

/-- The row written when no tool of the list is known. -/
def noInfoRow : DepRow := .message 3 "#999" "Keine Informationen verfügbar"

/-- The test `!item.installed_version`. -/
def notInstalled (item : Software) : Bool :=
  match item.installed_version with
  | some v => v = ""
  | none => true

/-- The function `getStatusBadge` of this file. -/
def getStatusBadge (item : Software) : String :=
  if notInstalled item then "<span class=\"version-badge version-error\">❌ Nicht installiert</span>"
  else "<span class=\"version-badge version-current\">✅ Installiert</span>"

/-- The constant `coreTools`: name and display name. -/
def coreTools : List (String × String) :=
  [("ddrescue", "GNU ddrescue"), ("genisoimage", "genisoimage"), ("python", "Python"),
   ("flask", "Flask")]

/-- The rows built by the `forEach` over `coreTools`. -/
def toolRows (softwareList : List Software) : List DepRow :=
  coreTools.filterMap fun tool =>
    match softwareList.find? fun s => s.name = tool.1 with
    | some software =>
      some (.tool (if notInstalled software then "row-inactive" else "") tool.2
        (if notInstalled software then "<em>Nicht installiert</em>"
         else strOfOpt software.installed_version)
        (getStatusBadge software))
    | none => none

/-- The function `updateSystemInfoDependencies`, on the rows of the table body
(`none`: no such element). -/
def updateSystemInfoDependencies (tbody : Option (List DepRow)) (softwareList : List Software) :
    Option (List DepRow) :=
  match tbody with
  | none => none
  | some _ =>
    let rows := toolRows softwareList
    if rows.isEmpty then some [noInfoRow] else some rows

/-- The function `showSystemInfoDependenciesError`. -/
def showSystemInfoDependenciesError (tbody : Option (List DepRow)) : Option (List DepRow) :=
  match tbody with
  | none => none
  | some _ => some [errorRow]

/-- The function `loadSystemInfoDependencies`: the table body afterwards. -/
def loadSystemInfoDependencies (tbody : Option (List DepRow)) (o : SystemOutcome) :
    Option (List DepRow) :=
  match o with
  | .networkError => showSystemInfoDependenciesError tbody
  | .badJson => showSystemInfoDependenciesError tbody
  | .json data =>
    match data.success, data.software with
    | true, some software => updateSystemInfoDependencies tbody software
    | _, _ => tbody

/-- A successful answer carrying the sample catalog. -/
def sampleCatalogResponse : CatalogResponse :=
  { success := true, catalog := some sampleCatalog, error := none }

/-! ## musicbrainz.js: the parts of a duration (lines 72-75) -/

/-- The constant `totalSeconds` of line 72. -/
def totalSeconds (d : Nat) : Nat := d / 1000

/-- The constant `hours` of line 73. -/
def hours (d : Nat) : Nat := totalSeconds d / 3600

/-- The constant `minutes` of line 74. -/
def minutes (d : Nat) : Nat := (totalSeconds d % 3600) / 60

/-- The constant `seconds` of line 75. -/
def seconds (d : Nat) : Nat := totalSeconds d % 60

/-- A form field: its tag name, its `value`, and the listeners added to it, each with its
event type and the config key it saves to. -/
structure FieldEl where
  tagName : String
  value : String
  listeners : List (String × String)
deriving DecidableEq, Repr

/-- The function `getConfigValue`: the page afterwards, and the returned `data.value` or the
text of the error thrown. -/
def getConfigValue (p : ConfigPage) (key : String) (o : ConfigOutcome) :
    ConfigPage × Except String (Option String) :=
  let p1 := { p with requests := p.requests ++
    [{ url := "/api/config/" ++ key, method := "GET", body := none }] }
  match o with
  | .networkError message => (p1, .error message)
  | .badJson message => (p1, .error message)
  | .json data =>
    if data.success then (p1, .ok data.value)
    else (p1, .error (strOr data.message "Failed to read config"))

/-- The function `initConfigField`; `element` is what `document.getElementById(elementId)`
finds.  The assignment to `element.value` is kept as the text assigned. -/
def initConfigField (p : ConfigPage) (element : Option FieldEl) (configKey : String)
    (defaultValue : String) (o : ConfigOutcome) : ConfigPage × Option FieldEl :=
  match element with
  | none => (p, none)
  | some el =>
    let r := getConfigValue p configKey o
    let value :=
      match r.2 with
      | .ok value => strOr value defaultValue
      | .error _ => defaultValue
    let trigger := if el.tagName = "SELECT" then "change" else "blur"
    (r.1, some { el with value := value, listeners := el.listeners ++ [(trigger, configKey)] })

/-- The read of a key fails: the fetch or the JSON parse throws, or `success` is false. -/
def readFails : ConfigOutcome → Bool
  | .networkError _ => true
  | .badJson _ => true
  | .json data => !data.success

/-- A text input without listeners. -/
def sampleInput : FieldEl := { tagName := "INPUT", value := "", listeners := [] }

/-- A select element without listeners. -/
def sampleSelect : FieldEl := { tagName := "SELECT", value := "3", listeners := [] }

/-- A successful read of a key whose value is the empty text. -/
def sampleEmptyValue : ConfigResponse :=
  { success := true, value := some "", message := none
    restart_required := false, restart_failed := false, restart_service := none }

/-- A successful read of a key with a value. -/
def sampleValue : ConfigResponse :=
  { success := true, value := some "/srv/iso", message := none
    restart_required := false, restart_failed := false, restart_service := none }

/-! ## The dependency table as the allow-list describes it -/

/-- The badge of an installed tool. -/
def badgeInstalled : String :=
  "<span class=\"version-badge version-current\">✅ Installiert</span>"

/-- The badge of a tool that is not installed. -/
def badgeNotInstalled : String :=
  "<span class=\"version-badge version-error\">❌ Nicht installiert</span>"

/-- The entry has an installed version: `installed_version` is there and not empty. -/
def hasInstalledVersion (item : Software) : Bool :=
  match item.installed_version with
  | some v => v ≠ ""
  | none => false

/-- The allow-listed tools whose name occurs in the list, in allow-list order. -/
def presentTools (softwareList : List Software) : List (String × String) :=
  coreTools.filter fun tool => softwareList.any fun s => s.name = tool.1

/-- The row of tool `tool`: built from the first entry of the list with the name of the
tool, with the badge "installed" iff that entry has an installed version, and marked
inactive iff the badge is "not installed". -/
def RowOfTool (softwareList : List Software) (tool : String × String) (row : DepRow) : Prop :=
  ∃ pre e post, softwareList = pre ++ e :: post ∧ (∀ x ∈ pre, x.name ≠ tool.1) ∧
    e.name = tool.1 ∧
    ∃ rowClass versionHtml badge, row = .tool rowClass tool.2 versionHtml badge ∧
      (badge = badgeInstalled ↔ hasInstalledVersion e = true) ∧
      (badge = badgeNotInstalled ↔ hasInstalledVersion e = false) ∧
      (rowClass = "row-inactive" ↔ badge = badgeNotInstalled) ∧
      (hasInstalledVersion e = true → e.installed_version = some versionHtml) ∧
      (hasInstalledVersion e = false → versionHtml = "<em>Nicht installiert</em>")

/-- A software list with a tool listed twice, an unknown tool, and a tool without version. -/
def sampleSoftware : List Software :=
  [ { name := "python", installed_version := some "3.11.2" },
    { name := "bash", installed_version := some "5.2" },
    { name := "python", installed_version := none },
    { name := "ddrescue", installed_version := none } ]

/-! ## The single selection of the rendered list -/

/-- The number of items whose radio input is checked. -/
def checkedCount (items : List ReleaseItem) : Nat :=
  items.countP fun el => el.checked

/-- The list holds `n` release items, exactly one of them carries the class `selected` and
exactly one radio input is checked. -/
def SingleSelection (s : MBState) (n : Nat) : Prop :=
  ∃ l, s.listEl = some l ∧ l.items.length = n ∧
    selectedCount l.items = 1 ∧ checkedCount l.items = 1

/-- A "waiting for input" payload whose suggested index is no position of its two
candidates. -/
def sampleOutOfRangePayload : StatusPayload :=
  { status := "waiting_user_input", releases := some sampleReleases
    selected_index := some 5, message := none }

/-! # Theorems -/

/-! ### Lemmas on decimal rendering and padding -/

theorem colonFields_ne_nil (cs : List Char) : colonFields cs ≠ [] := by
  induction cs with
  | nil => simp [colonFields]
  | cons c cs ih =>
    unfold colonFields
    split
    · simp
    · split <;> simp

theorem length_updateAt {α : Type} (f : α → α) (xs : List α) :
    ∀ i, (updateAt f i xs).length = xs.length := by
  induction xs with
  | nil => intro i; simp [updateAt]
  | cons x xs ih =>
    intro i
    cases i with
    | zero => simp [updateAt]
    | succ n => simp [updateAt, ih n]

theorem getElem?_updateAt_self {α : Type} (f : α → α) (xs : List α) :
    ∀ i, (updateAt f i xs)[i]? = xs[i]?.map f := by
  induction xs with
  | nil => intro i; simp [updateAt]
  | cons x xs ih =>
    intro i
    cases i with
    | zero => simp [updateAt]
    | succ n => simpa [updateAt] using ih n

theorem getElem?_updateAt {α : Type} (f : α → α) (xs : List α) :
    ∀ (i k : Nat) (y : α), (updateAt f i xs)[k]? = some y →
      ∃ x, xs[k]? = some x ∧ (y = x ∨ y = f x) := by
  induction xs with
  | nil => intro i k y h; simp [updateAt] at h
  | cons x xs ih =>
    intro i k y h
    cases i with
    | zero =>
      cases k with
      | zero =>
        simp only [updateAt, List.getElem?_cons_zero, Option.some.injEq] at h
        exact ⟨x, by simp, Or.inr h.symm⟩
      | succ m =>
        simp only [updateAt, List.getElem?_cons_succ] at h
        exact ⟨y, by simpa using h, Or.inl rfl⟩
    | succ n =>
      cases k with
      | zero =>
        simp only [updateAt, List.getElem?_cons_zero, Option.some.injEq] at h
        exact ⟨x, by simp, Or.inl h.symm⟩
      | succ m =>
        simp only [updateAt, List.getElem?_cons_succ] at h
        simpa using ih n m y h

theorem countP_updateAt_one {α : Type} (p : α → Bool) (f : α → α) (xs : List α)
    (hnone : ∀ x ∈ xs, p x = false) (hf : ∀ x, p (f x) = true) :
    ∀ i, i < xs.length → (updateAt f i xs).countP p = 1 := by
  induction xs with
  | nil => intro i hi; simp at hi
  | cons x xs ih =>
    intro i hi
    have hrest : xs.countP p = 0 := by
      rw [List.countP_eq_zero]
      intro a ha
      simp [hnone a (by simp [ha])]
    cases i with
    | zero => simp [updateAt, List.countP_cons, hf, hrest]
    | succ n =>
      have hx : p x = false := hnone x (by simp)
      have := ih (fun a ha => hnone a (by simp [ha])) n (by simpa using hi)
      simp [updateAt, List.countP_cons, hx, this]

theorem mem_classListAdd_self (cl : List String) (tok : String) : tok ∈ classListAdd cl tok := by
  unfold classListAdd
  split <;> simp_all

theorem mem_classListAdd_of_mem (cl : List String) (tok t : String) (h : t ∈ cl) :
    t ∈ classListAdd cl tok := by
  unfold classListAdd
  split <;> simp_all

theorem not_mem_classListRemove (cl : List String) (tok : String) :
    tok ∉ classListRemove cl tok := by
  simp [classListRemove]

theorem mem_classListRemove_of_ne (cl : List String) (tok t : String) (h : t ∈ cl)
    (hne : t ≠ tok) : t ∈ classListRemove cl tok := by
  simp [classListRemove, h, hne]

theorem renderItems_getElem? (sel : Int) (rs : List Release) :
    ∀ (start k : Nat) (it : ReleaseItem), (renderItems sel start rs)[k]? = some it →
      it.index = start + k ∧ "release-item" ∈ it.classList ∧ k < rs.length := by
  induction rs with
  | nil => intro start k it h; simp [renderItems] at h
  | cons r rs ih =>
    intro start k it h
    cases k with
    | zero =>
      simp only [renderItems, List.getElem?_cons_zero, Option.some.injEq] at h
      subst h
      refine ⟨by simp [renderItem], ?_, by simp⟩
      simp only [renderItem]
      split
      · exact mem_classListAdd_of_mem _ _ _ (by simp)
      · simp
    | succ m =>
      simp only [renderItems, List.getElem?_cons_succ] at h
      obtain ⟨h1, h2, h3⟩ := ih (start + 1) m it h
      exact ⟨by omega, h2, by simp; omega⟩

theorem checkRadio_length (xs : List ReleaseItem) : ∀ i, (checkRadio i xs).length = xs.length := by
  induction xs with
  | nil => intro i; simp [checkRadio]
  | cons x xs ih =>
    intro i
    cases i with
    | zero => simp [checkRadio]
    | succ n => simp [checkRadio, ih n]

theorem checkRadio_getElem? (xs : List ReleaseItem) :
    ∀ (i k : Nat) (y : ReleaseItem), (checkRadio i xs)[k]? = some y →
      ∃ x : ReleaseItem, xs[k]? = some x ∧ y.index = x.index ∧ y.classList = x.classList := by
  induction xs with
  | nil => intro i k y h; simp [checkRadio] at h
  | cons x xs ih =>
    intro i k y h
    cases i with
    | zero =>
      cases k with
      | zero =>
        simp only [checkRadio, List.getElem?_cons_zero, Option.some.injEq] at h
        subst h
        exact ⟨x, by simp, rfl, rfl⟩
      | succ m =>
        simp only [checkRadio, List.getElem?_cons_succ, List.getElem?_map] at h
        cases hx : xs[m]? with
        | none => simp [hx] at h
        | some z =>
          simp only [hx, Option.map_some', Option.some.injEq] at h
          subst h
          exact ⟨z, by simp [hx], rfl, rfl⟩
    | succ n =>
      cases k with
      | zero =>
        simp only [checkRadio, List.getElem?_cons_zero, Option.some.injEq] at h
        subst h
        exact ⟨x, by simp, rfl, rfl⟩
      | succ m =>
        simp only [checkRadio, List.getElem?_cons_succ] at h
        simpa using ih n m y h

/-! ### The rendered list stays consistent with the module variables -/

theorem WellRendered.of_same {s s' : MBState} (h : WellRendered s)
    (hl : s'.listEl = s.listEl) (hc : s'.currentReleases = s.currentReleases)
    (hm : s'.modal = none → s.modal = none) : WellRendered s' := by
  refine ⟨fun hn l hl' => h.1 (hm hn) l (hl ▸ hl'), fun l hl' k it hk => ?_⟩
  rw [hc]
  exact h.2 l (hl ▸ hl') k it hk

theorem map_modal_none {s : Option String} {f : String → String} (h : s.map f = none) :
    s = none := by
  cases s <;> simp_all

/-- What `confirmMusicBrainzSelection` leaves alone. -/
theorem confirm_frame (s : MBState) (o : SubmitOutcome) :
    (confirmMusicBrainzSelection s o).selectedIndex = s.selectedIndex ∧
    (confirmMusicBrainzSelection s o).currentReleases = s.currentReleases ∧
    (confirmMusicBrainzSelection s o).listEl = s.listEl ∧
    ((confirmMusicBrainzSelection s o).modal = none → s.modal = none) := by
  rcases o with _ | _ | result
  · simp [confirmMusicBrainzSelection, showNotification]
  · simp [confirmMusicBrainzSelection, showNotification]
  · cases hr : result.success <;>
      simp [confirmMusicBrainzSelection, hr, showNotification, closeMusicBrainzModal]

/-- What `submitManualMetadata` leaves alone. -/
theorem manual_frame (s : MBState) (a b y : Option String) (o : SubmitOutcome) :
    (submitManualMetadata s a b y o).selectedIndex = s.selectedIndex ∧
    (submitManualMetadata s a b y o).currentReleases = s.currentReleases ∧
    (submitManualMetadata s a b y o).listEl = s.listEl ∧
    ((submitManualMetadata s a b y o).modal = none → s.modal = none) := by
  rcases a with _ | a
  · simp [submitManualMetadata]
  rcases b with _ | b
  · simp [submitManualMetadata]
  rcases y with _ | y
  · simp [submitManualMetadata]
  by_cases hc : jsTrim a = "" ∨ jsTrim b = "" ∨ jsTrim y = ""
  · simp [submitManualMetadata, hc, showNotification]
  · rcases o with _ | _ | result
    · simp [submitManualMetadata, hc, showNotification]
    · simp [submitManualMetadata, hc, showNotification]
    · cases hr : result.success <;>
        simp [submitManualMetadata, hc, hr, showNotification, closeMusicBrainzModal]

theorem showMusicBrainzModal_selectedIndex (s : MBState) (data : StatusPayload) :
    (showMusicBrainzModal s data).selectedIndex = s.selectedIndex ∧
    (showMusicBrainzModal s data).currentReleases = s.currentReleases := by
  unfold showMusicBrainzModal
  split <;> simp

theorem wellRendered_showMusicBrainzModal (s s0 : MBState) (data : StatusPayload)
    (h : WellRendered s0) (hl : s.listEl = s0.listEl) (hm : s.modal = s0.modal) :
    WellRendered (showMusicBrainzModal s data) := by
  unfold showMusicBrainzModal
  split
  · refine ⟨by simp, ?_⟩
    intro l hl' k it hk
    simp only [Option.some.injEq] at hl'
    subst hl'
    have := renderItems_getElem? _ _ 0 k it hk
    simpa using this
  · rename_i hno
    refine ⟨fun hn l hl' => h.1 (hm ▸ hn) l (hl ▸ hl'), ?_⟩
    intro l hl' k it hk
    cases hmod : s.modal with
    | none =>
      have := h.1 (hm ▸ hmod) l (hl ▸ hl')
      simp [this] at hk
    | some d => exact absurd hl' (by intro hl''; exact hno d l hmod hl'')

theorem wellRendered_pollReply (s : MBState) (o : PollOutcome) (h : WellRendered s) :
    WellRendered (pollReply s o) := by
  cases o with
  | networkError => exact h
  | notFound => exact h
  | badJson => exact h
  | json data =>
    simp only [pollReply]
    split
    · exact wellRendered_showMusicBrainzModal _ s data h rfl rfl
    · exact h

theorem changeHandler_frame (s : MBState) (i : Nat) :
    (changeHandler s i).currentReleases = s.currentReleases ∧
    (changeHandler s i).modal = s.modal := by
  unfold changeHandler
  split
  · simp
  · split <;> simp

theorem wellRendered_changeHandler (s : MBState) (i : Nat) (h : WellRendered s) :
    WellRendered (changeHandler s i) := by
  obtain ⟨hc, hm⟩ := changeHandler_frame s i
  refine ⟨?_, ?_⟩
  · intro hn l' hl'
    rw [hm] at hn
    unfold changeHandler at hl'
    split at hl'
    · simp_all
    · rename_i l hl
      have hnil := h.1 hn l hl
      split at hl'
      · exact h.1 hn l' hl'
      · simp only [Option.some.injEq] at hl'
        subst hl'
        simp [hnil, updateAt]
  · intro l' hl' k it hk
    rw [hc]
    unfold changeHandler at hl'
    split at hl'
    · simp_all
    · rename_i l hl
      split at hl'
      · exact h.2 l' hl' k it hk
      · simp only [Option.some.injEq] at hl'
        subst hl'
        obtain ⟨x, hx, hxy⟩ := getElem?_updateAt _ _ i k it hk
        rw [List.getElem?_map] at hx
        cases hlk : l.items[k]? with
        | none => simp [hlk] at hx
        | some orig =>
          obtain ⟨h1, h2, h3⟩ := h.2 l hl k orig hlk
          simp only [hlk, Option.map_some', Option.some.injEq, clearSelected, h2, if_true] at hx
          have hxi : x.index = k ∧ "release-item" ∈ x.classList := by
            subst hx
            exact ⟨h1, mem_classListRemove_of_ne _ _ _ h2 (by decide)⟩
          rcases hxy with rfl | rfl
          · exact ⟨hxi.1, hxi.2, h3⟩
          · exact ⟨hxi.1, mem_classListAdd_of_mem _ _ _ hxi.2, h3⟩

theorem wellRendered_checkRadio (s : MBState) (l : ReleaseList) (i : Nat) (h : WellRendered s)
    (hl : s.listEl = some l) :
    WellRendered { s with listEl := some { l with items := checkRadio i l.items } } := by
  refine ⟨?_, ?_⟩
  · intro hn l' hl'
    simp only [Option.some.injEq] at hl'
    subst hl'
    have := h.1 hn l hl
    simp [this, checkRadio]
  · intro l' hl' k it hk
    simp only [Option.some.injEq] at hl'
    subst hl'
    obtain ⟨x, hx, hi1, hi2⟩ := checkRadio_getElem? _ i k it hk
    obtain ⟨h1, h2, h3⟩ := h.2 l hl k x hx
    exact ⟨hi1 ▸ h1, hi2 ▸ h2, h3⟩

theorem wellRendered_userSelect (s : MBState) (i : Nat) (h : WellRendered s) :
    WellRendered (userSelect s i) := by
  unfold userSelect
  split
  · exact h
  · rename_i l hl
    split
    · exact wellRendered_changeHandler _ i (wellRendered_checkRadio s l i h hl)
    · exact h

theorem wellRendered_step (s : MBState) (e : MBEvent) (h : WellRendered s) :
    WellRendered (mbStep s e) := by
  cases e with
  | tick =>
    simp only [mbStep]
    split
    · exact h
    · exact h.of_same rfl rfl (fun hn => hn)
  | reply o => exact wellRendered_pollReply s o h
  | select i => exact wellRendered_userSelect s i h
  | confirm o =>
    obtain ⟨_, h2, h3, h4⟩ := confirm_frame s o
    exact h.of_same h3 h2 h4
  | manual a b y o =>
    obtain ⟨_, h2, h3, h4⟩ := manual_frame s a b y o
    exact h.of_same h3 h2 h4
  | close => exact h.of_same rfl rfl map_modal_none

theorem wellRendered_init (modal messageEl : Option String) (hasList : Bool) :
    WellRendered (mbInit modal messageEl hasList) := by
  refine ⟨?_, ?_⟩
  · intro _ l hl
    cases hasList <;> simp [mbInit] at hl
    subst hl
    rfl
  · intro l hl k it hk
    cases hasList <;> simp [mbInit] at hl
    subst hl
    simp at hk

theorem wellRendered_run (events : List MBEvent) :
    ∀ s, WellRendered s → WellRendered (mbRun s events) := by
  induction events with
  | nil => intro s h; exact h
  | cons e rest ih => intro s h; exact ih _ (wellRendered_step s e h)

theorem changeHandler_spec (s : MBState) (h : WellRendered s) (l : ReleaseList)
    (hl : s.listEl = some l) (i : Nat) (hi : i < l.items.length) :
    ∃ l', (changeHandler s i).listEl = some l' ∧
      l'.items.length = l.items.length ∧
      selectedCount l'.items = 1 ∧
      (∃ it, l'.items[i]? = some it ∧ "selected" ∈ it.classList) ∧
      (changeHandler s i).selectedIndex = (i : Int) := by
  have hget : l.items[i]? = some l.items[i] := List.getElem?_eq_getElem hi
  obtain ⟨hidx, _, _⟩ := h.2 l hl i _ hget
  have hch : changeHandler s i =
      { s with selectedIndex := (l.items[i]).index
               listEl := some { l with items := updateAt markSelected i (l.items.map clearSelected) } } := by
    simp only [changeHandler, hl, hget]
  rw [hch]
  refine ⟨_, rfl, ?_, ?_, ?_, ?_⟩
  · simp [length_updateAt]
  · apply countP_updateAt_one
    · intro x hx
      obtain ⟨orig, horig, rfl⟩ := List.mem_map.mp hx
      obtain ⟨k, hk⟩ := List.getElem?_of_mem horig
      obtain ⟨_, h2, _⟩ := h.2 l hl k orig hk
      simp [clearSelected, h2, classListRemove]
    · intro x
      simpa [markSelected] using mem_classListAdd_self x.classList "selected"
    · simpa using hi
  · refine ⟨markSelected (clearSelected l.items[i]), ?_, ?_⟩
    · simp [getElem?_updateAt_self, hget]
    · simpa [markSelected] using mem_classListAdd_self _ "selected"
  · simp [hidx]

/-! ## C2: the change handler of a rendered entry -/

/-- C2: in every page reached from script load, for the rendered list `l` and every position
`i < n`, firing the change handler of entry `i` leaves a list of the same size in which
exactly one item carries `selected`, the item at position `i`, and sets `selectedIndex`
to `i`. -/
theorem changeHandler_selects_exactly_one (modal messageEl : Option String) (hasList : Bool)
    (events : List MBEvent) (l : ReleaseList) (i : Nat)
    (hl : (mbRun (mbInit modal messageEl hasList) events).listEl = some l)
    (hi : i < l.items.length) :
    ∃ l', (changeHandler (mbRun (mbInit modal messageEl hasList) events) i).listEl = some l' ∧
      l'.items.length = l.items.length ∧
      selectedCount l'.items = 1 ∧
      (∃ it, l'.items[i]? = some it ∧ "selected" ∈ it.classList) ∧
      (changeHandler (mbRun (mbInit modal messageEl hasList) events) i).selectedIndex = (i : Int) :=
  changeHandler_spec _ (wellRendered_run events _ (wellRendered_init modal messageEl hasList))
    l hl i hi

theorem changeHandler_selects_exactly_one_witness :
    ∃ l', (changeHandler (mbRun (mbInit (some "none") (some "") true)
        [.tick, .reply (.json samplePayload)]) 1).listEl = some l' ∧
      l'.items.length = (ReleaseList.mk (renderItems 0 0 sampleReleases) true).items.length ∧
      selectedCount l'.items = 1 ∧
      (∃ it, l'.items[1]? = some it ∧ "selected" ∈ it.classList) ∧
      (changeHandler (mbRun (mbInit (some "none") (some "") true)
        [.tick, .reply (.json samplePayload)]) 1).selectedIndex = ((1 : Nat) : Int) :=
  changeHandler_selects_exactly_one (some "none") (some "") true
    [.tick, .reply (.json samplePayload)] ⟨renderItems 0 0 sampleReleases, true⟩ 1
    (by decide) (by decide)

/-! ## C6: a poll tick while the modal is open -/

/-- C6: when the modal is open (display `flex`), `checkMusicBrainzStatus` returns the page
as it was, whatever the server would have answered: no request is added, and
`currentReleases`, `selectedIndex` and the rendered list are unchanged. -/
theorem checkMusicBrainzStatus_open_noop (s : MBState) (o : PollOutcome)
    (h : s.modal = some "flex") :
    checkMusicBrainzStatus s o = s ∧
    (checkMusicBrainzStatus s o).requests = s.requests ∧
    (checkMusicBrainzStatus s o).currentReleases = s.currentReleases ∧
    (checkMusicBrainzStatus s o).selectedIndex = s.selectedIndex ∧
    (checkMusicBrainzStatus s o).listEl = s.listEl := by
  have : checkMusicBrainzStatus s o = s := by
    simp [checkMusicBrainzStatus, modalIsOpen, h]
  simp [this]

theorem checkMusicBrainzStatus_open_noop_witness :
    checkMusicBrainzStatus samplePageOpen (.json samplePayload) = samplePageOpen ∧
    (checkMusicBrainzStatus samplePageOpen (.json samplePayload)).requests
      = samplePageOpen.requests ∧
    (checkMusicBrainzStatus samplePageOpen (.json samplePayload)).currentReleases
      = samplePageOpen.currentReleases ∧
    (checkMusicBrainzStatus samplePageOpen (.json samplePayload)).selectedIndex
      = samplePageOpen.selectedIndex ∧
    (checkMusicBrainzStatus samplePageOpen (.json samplePayload)).listEl
      = samplePageOpen.listEl :=
  checkMusicBrainzStatus_open_noop samplePageOpen (.json samplePayload) (by decide)

/-! ## C7: `selectedIndex` is valid or the suggested index -/

theorem suggestedFrom_cons (g : Int) (e : MBEvent) (rest : List MBEvent) :
    suggestedFrom g (e :: rest) = suggestedFrom (suggestedFrom g [e]) rest := by
  unfold suggestedFrom
  cases hr : lastWaitingIndex rest with
  | some r => cases r <;> simp [lastWaitingIndex, hr]
  | none =>
    cases he : lastWaitingIndex [e] with
    | none =>
      have : lastWaitingIndex (e :: rest) = none := by
        simp only [lastWaitingIndex, hr] at he ⊢
        exact he
      simp [this]
    | some r =>
      have : lastWaitingIndex (e :: rest) = some r := by
        simp only [lastWaitingIndex, hr] at he ⊢
        exact he
      simp [this]

theorem suggestedFrom_zero (events : List MBEvent) :
    suggestedFrom 0 events = suggestedIndex events := by
  unfold suggestedFrom suggestedIndex
  cases lastWaitingIndex events with
  | none => rfl
  | some r => cases r <;> rfl

theorem selectedIndex_step (s : MBState) (e : MBEvent) (g : Int) (h : WellRendered s)
    (hinv : validIndex s ∨ s.selectedIndex = g) :
    validIndex (mbStep s e) ∨ (mbStep s e).selectedIndex = suggestedFrom g [e] := by
  cases e with
  | tick =>
    have hg : suggestedFrom g [MBEvent.tick] = g := rfl
    rw [hg]
    simp only [mbStep]
    split
    · exact hinv
    · exact hinv
  | reply o =>
    rcases o with _ | _ | _ | data
    · exact hinv
    · exact hinv
    · exact hinv
    · by_cases hw : data.status = "waiting_user_input"
      · right
        simp only [mbStep, pollReply, hw, if_true, (showMusicBrainzModal_selectedIndex _ data).1]
        cases hsel : data.selected_index with
        | none => simp [suggestedFrom, lastWaitingIndex, hw, hsel]
        | some k =>
          by_cases hk : k = 0 <;> simp [suggestedFrom, lastWaitingIndex, hw, hsel, hk]
      · have hg : suggestedFrom g [MBEvent.reply (.json data)] = g := by
          simp [suggestedFrom, lastWaitingIndex, hw]
        rw [hg]
        simpa [mbStep, pollReply, hw] using hinv
  | select i =>
    have hg : suggestedFrom g [MBEvent.select i] = g := rfl
    rw [hg]
    simp only [mbStep, userSelect]
    split
    · exact hinv
    · rename_i l hl
      split
      · rename_i hi
        left
        have hwr := wellRendered_checkRadio s l i h hl
        obtain ⟨_, _, _, _, _, hsel⟩ := changeHandler_spec _ hwr
          { l with items := checkRadio i l.items } rfl i (by simpa [checkRadio_length] using hi)
        have hcur := (changeHandler_frame
          { s with listEl := some { l with items := checkRadio i l.items } } i).1
        have hlt := (h.2 l hl i _ (List.getElem?_eq_getElem hi)).2.2
        unfold validIndex
        rw [hsel, hcur]
        exact ⟨by omega, by exact_mod_cast hlt⟩
      · exact hinv
  | confirm o =>
    have hg : suggestedFrom g [MBEvent.confirm o] = g := rfl
    obtain ⟨h1, h2, _, _⟩ := confirm_frame s o
    rw [hg]
    unfold validIndex
    simp only [mbStep, h1, h2]
    exact hinv
  | manual a b y o =>
    have hg : suggestedFrom g [MBEvent.manual a b y o] = g := rfl
    obtain ⟨h1, h2, _, _⟩ := manual_frame s a b y o
    rw [hg]
    unfold validIndex
    simp only [mbStep, h1, h2]
    exact hinv
  | close =>
    exact hinv

theorem selectedIndex_run (events : List MBEvent) :
    ∀ (s : MBState) (g : Int), WellRendered s → (validIndex s ∨ s.selectedIndex = g) →
      validIndex (mbRun s events) ∨ (mbRun s events).selectedIndex = suggestedFrom g events := by
  induction events with
  | nil => intro s g _ hinv; exact hinv
  | cons e rest ih =>
    intro s g h hinv
    rw [suggestedFrom_cons]
    exact ih (mbStep s e) _ (wellRendered_step s e h) (selectedIndex_step s e g h hinv)

/-- C7: in every page reached from script load by poll ticks, poll answers (arbitrary
payloads), user selections, confirmations, manual submissions and closings, `selectedIndex`
is a valid index into `currentReleases` or equals the `selected_index` of the most recent
"waiting for input" payload (0 when the payload carries none or none has come yet). -/
theorem selectedIndex_valid_or_suggested (modal messageEl : Option String) (hasList : Bool)
    (events : List MBEvent) :
    (0 ≤ (mbRun (mbInit modal messageEl hasList) events).selectedIndex ∧
      (mbRun (mbInit modal messageEl hasList) events).selectedIndex <
        ((mbRun (mbInit modal messageEl hasList) events).currentReleases.length : Int)) ∨
    (mbRun (mbInit modal messageEl hasList) events).selectedIndex = suggestedIndex events := by
  have := selectedIndex_run events (mbInit modal messageEl hasList) 0
    (wellRendered_init modal messageEl hasList) (Or.inr rfl)
  rw [suggestedFrom_zero] at this
  exact this

/-! ## C3: validation in `submitManualMetadata` -/

/-- C3: for all values of the three fields: if one of them is empty after trimming, the page
only gains one notification of class `notification-warning` (no request, modal state as
before); if all three are non-empty after trimming, exactly one request is added, a POST to
`/api/musicbrainz/manual` carrying the trimmed values, whatever the server answers. -/
theorem submitManualMetadata_validation (s : MBState) (a b y : String) (o : SubmitOutcome) :
    ((jsTrim a = "" ∨ jsTrim b = "" ∨ jsTrim y = "") →
      submitManualMetadata s (some a) (some b) (some y) o =
        { s with notifications := s.notifications ++
            [{ className := "notification notification-warning"
               textContent := "Bitte füllen Sie alle Felder aus"
               background := "#3498db" }] }) ∧
    (¬ (jsTrim a = "" ∨ jsTrim b = "" ∨ jsTrim y = "") →
      (submitManualMetadata s (some a) (some b) (some y) o).requests =
        s.requests ++ [{ url := "/api/musicbrainz/manual", method := "POST"
                         body := some (.manual (jsTrim a) (jsTrim b) (jsTrim y)) }]) := by
  refine ⟨fun hc => ?_, fun hc => ?_⟩
  · simp only [submitManualMetadata, hc, if_true, showNotification]
    rfl
  · rcases o with _ | _ | result
    · simp [submitManualMetadata, hc, showNotification]
    · simp [submitManualMetadata, hc, showNotification]
    · cases hr : result.success <;>
        simp [submitManualMetadata, hc, hr, showNotification, closeMusicBrainzModal]

theorem submitManualMetadata_validation_witness :
    (submitManualMetadata samplePageOpen (some "Artist") (some "  \t ") (some "1999")
        (.json { success := true, message := none }) =
      { samplePageOpen with notifications := samplePageOpen.notifications ++
          [{ className := "notification notification-warning"
             textContent := "Bitte füllen Sie alle Felder aus"
             background := "#3498db" }] }) ∧
    ((submitManualMetadata samplePageOpen (some " Artist ") (some "Album\n") (some "1999")
        (.json { success := true, message := none })).requests =
      samplePageOpen.requests ++
        [{ url := "/api/musicbrainz/manual", method := "POST"
           body := some (.manual (jsTrim " Artist ") (jsTrim "Album\n") (jsTrim "1999")) }]) :=
  ⟨(submitManualMetadata_validation samplePageOpen "Artist" "  \t " "1999"
      (.json { success := true, message := none })).1 (by decide),
   (submitManualMetadata_validation samplePageOpen " Artist " "Album\n" "1999"
      (.json { success := true, message := none })).2 (by decide)⟩

/-! ## C10: the outcomes of `confirmMusicBrainzSelection` -/

/-- C10: whatever the server answers, one POST to `/api/musicbrainz/select` is added whose
body carries the current `selectedIndex`; when the answer has `success` true the modal is
closed and one notification of class `notification-success` is shown; when it has `success`
false the modal, `selectedIndex`, `currentReleases` and the list are as before and one
notification of class `notification-error` is shown whose text ends with the message the
server provided. -/
theorem confirmMusicBrainzSelection_outcomes (s : MBState) (o : SubmitOutcome)
    (result : SubmitResult) :
    (confirmMusicBrainzSelection s o).requests =
      s.requests ++ [{ url := "/api/musicbrainz/select", method := "POST"
                       body := some (.selectIndex s.selectedIndex) }] ∧
    (result.success = true →
      (confirmMusicBrainzSelection s (.json result)).modal = s.modal.map (fun _ => "none") ∧
      modalIsOpen (confirmMusicBrainzSelection s (.json result)) = false ∧
      (confirmMusicBrainzSelection s (.json result)).notifications = s.notifications ++
        [{ className := "notification notification-success"
           textContent := "Album ausgewählt. Kopiervorgang wird fortgesetzt..."
           background := "#27ae60" }]) ∧
    (result.success = false →
      (confirmMusicBrainzSelection s (.json result)).modal = s.modal ∧
      (confirmMusicBrainzSelection s (.json result)).selectedIndex = s.selectedIndex ∧
      (confirmMusicBrainzSelection s (.json result)).currentReleases = s.currentReleases ∧
      (confirmMusicBrainzSelection s (.json result)).listEl = s.listEl ∧
      (confirmMusicBrainzSelection s (.json result)).notifications = s.notifications ++
        [{ className := "notification notification-error"
           textContent := "Fehler beim Speichern: " ++ strOfOpt result.message
           background := "#e74c3c" }] ∧
      ∀ msg, result.message = some msg →
        ((confirmMusicBrainzSelection s (.json result)).notifications.map
          fun n => n.textContent) =
        (s.notifications.map fun n => n.textContent) ++ ["Fehler beim Speichern: " ++ msg]) := by
  refine ⟨?_, fun hr => ?_, fun hr => ?_⟩
  · rcases o with _ | _ | r
    · simp [confirmMusicBrainzSelection, showNotification]
    · simp [confirmMusicBrainzSelection, showNotification]
    · cases hr : r.success <;>
        simp [confirmMusicBrainzSelection, hr, showNotification, closeMusicBrainzModal]
  · refine ⟨?_, ?_, ?_⟩
    · simp [confirmMusicBrainzSelection, hr, showNotification, closeMusicBrainzModal]
    · cases hm : s.modal <;>
        simp [confirmMusicBrainzSelection, hr, showNotification, closeMusicBrainzModal,
          modalIsOpen, hm]
    · simp [confirmMusicBrainzSelection, hr, showNotification, closeMusicBrainzModal]
  · refine ⟨?_, ?_, ?_, ?_, ?_, ?_⟩
    · simp [confirmMusicBrainzSelection, hr, showNotification]
    · simp [confirmMusicBrainzSelection, hr, showNotification]
    · simp [confirmMusicBrainzSelection, hr, showNotification]
    · simp [confirmMusicBrainzSelection, hr, showNotification]
    · simp [confirmMusicBrainzSelection, hr, showNotification]
    · intro msg hmsg
      simp [confirmMusicBrainzSelection, hr, showNotification, hmsg, strOfOpt]

theorem confirmMusicBrainzSelection_outcomes_witness :
    ((confirmMusicBrainzSelection samplePageOpen (.json sampleAccept)).modal =
        samplePageOpen.modal.map (fun _ => "none") ∧
      modalIsOpen (confirmMusicBrainzSelection samplePageOpen (.json sampleAccept)) = false ∧
      (confirmMusicBrainzSelection samplePageOpen (.json sampleAccept)).notifications =
        samplePageOpen.notifications ++
          [{ className := "notification notification-success"
             textContent := "Album ausgewählt. Kopiervorgang wird fortgesetzt..."
             background := "#27ae60" }]) ∧
    ((confirmMusicBrainzSelection samplePageOpen (.json sampleRefusal)).modal =
        samplePageOpen.modal ∧
      (confirmMusicBrainzSelection samplePageOpen (.json sampleRefusal)).selectedIndex =
        samplePageOpen.selectedIndex ∧
      (confirmMusicBrainzSelection samplePageOpen (.json sampleRefusal)).currentReleases =
        samplePageOpen.currentReleases ∧
      (confirmMusicBrainzSelection samplePageOpen (.json sampleRefusal)).listEl =
        samplePageOpen.listEl ∧
      (confirmMusicBrainzSelection samplePageOpen (.json sampleRefusal)).notifications =
        samplePageOpen.notifications ++
          [{ className := "notification notification-error"
             textContent := "Fehler beim Speichern: " ++ strOfOpt sampleRefusal.message
             background := "#e74c3c" }] ∧
      ∀ msg, sampleRefusal.message = some msg →
        ((confirmMusicBrainzSelection samplePageOpen (.json sampleRefusal)).notifications.map
          fun n => n.textContent) =
        (samplePageOpen.notifications.map fun n => n.textContent) ++
          ["Fehler beim Speichern: " ++ msg]) :=
  ⟨(confirmMusicBrainzSelection_outcomes samplePageOpen (.json sampleAccept) sampleAccept).2.1
      (by decide),
   (confirmMusicBrainzSelection_outcomes samplePageOpen (.json sampleRefusal) sampleRefusal).2.2
      (by decide)⟩

/-! ## C4: a failed catalog load -/

/-- C4: when the fetch or the JSON parse throws, or the body has `success` false, and the
three category containers exist, all three end up with the same content, one error-message
paragraph, and no module card is in any of them. -/
theorem loadStoreCatalog_failure (p : StorePage) (o : CatalogOutcome)
    (hfail : o = .networkError ∨ o = .badJson ∨ ∃ data, o = .json data ∧ data.success = false)
    (hc : p.coreContainer.isSome = true) (ho : p.optionalContainer.isSome = true)
    (hp : p.providersContainer.isSome = true) :
    ∃ message,
      (loadStoreCatalog p o).coreContainer = some [.errorMessage message] ∧
      (loadStoreCatalog p o).optionalContainer = some [.errorMessage message] ∧
      (loadStoreCatalog p o).providersContainer = some [.errorMessage message] ∧
      cardTotal (loadStoreCatalog p o).coreContainer = 0 ∧
      cardTotal (loadStoreCatalog p o).optionalContainer = 0 ∧
      cardTotal (loadStoreCatalog p o).providersContainer = 0 := by
  obtain ⟨a, ha⟩ := Option.isSome_iff_exists.mp hc
  obtain ⟨b, hb⟩ := Option.isSome_iff_exists.mp ho
  obtain ⟨c, hc'⟩ := Option.isSome_iff_exists.mp hp
  rcases hfail with rfl | rfl | ⟨data, rfl, hs⟩
  · exact ⟨"Katalog konnte nicht geladen werden", by
      simp [loadStoreCatalog, showError, ha, hb, hc', cardTotal]⟩
  · exact ⟨"Katalog konnte nicht geladen werden", by
      simp [loadStoreCatalog, showError, ha, hb, hc', cardTotal]⟩
  · exact ⟨"Fehler beim Laden des Katalogs", by
      simp [loadStoreCatalog, showError, ha, hb, hc', hs, cardTotal]⟩

theorem loadStoreCatalog_failure_witness :
    ∃ message,
      (loadStoreCatalog sampleStorePage
        (.json { success := false, catalog := some sampleCatalog, error := some "x" })
        ).coreContainer = some [.errorMessage message] ∧
      (loadStoreCatalog sampleStorePage
        (.json { success := false, catalog := some sampleCatalog, error := some "x" })
        ).optionalContainer = some [.errorMessage message] ∧
      (loadStoreCatalog sampleStorePage
        (.json { success := false, catalog := some sampleCatalog, error := some "x" })
        ).providersContainer = some [.errorMessage message] ∧
      cardTotal (loadStoreCatalog sampleStorePage
        (.json { success := false, catalog := some sampleCatalog, error := some "x" })
        ).coreContainer = 0 ∧
      cardTotal (loadStoreCatalog sampleStorePage
        (.json { success := false, catalog := some sampleCatalog, error := some "x" })
        ).optionalContainer = 0 ∧
      cardTotal (loadStoreCatalog sampleStorePage
        (.json { success := false, catalog := some sampleCatalog, error := some "x" })
        ).providersContainer = 0 :=
  loadStoreCatalog_failure sampleStorePage
    (.json { success := false, catalog := some sampleCatalog, error := some "x" })
    (Or.inr (Or.inr ⟨_, rfl, rfl⟩)) (by decide) (by decide) (by decide)

/-! ## C5: the toast of a successful config write -/

/-- C5: for every response with `success` true, exactly one toast is added and the response
is returned unchanged; with `restart_required` and `restart_failed` both true the toast has
class `toast-warning`, with `restart_required` false it has class `toast-success`; the two
toasts differ in class and in background colour. -/
theorem setConfigValue_success_toast (p : ConfigPage) (key value : String)
    (data : ConfigResponse) (hs : data.success = true) :
    (setConfigValue p key value (.json data)).2 = .ok data ∧
    (∃ t, toasts (setConfigValue p key value (.json data)).1 = toasts p ++ [t]) ∧
    (data.restart_required = true → data.restart_failed = true →
      toasts (setConfigValue p key value (.json data)).1 = toasts p ++
        [{ className := "toast toast-warning", background := "#ffc107"
           textContent := "Gespeichert, aber Service-Neustart fehlgeschlagen" }]) ∧
    (data.restart_required = false →
      toasts (setConfigValue p key value (.json data)).1 = toasts p ++
        [{ className := "toast toast-success", background := "#28a745"
           textContent := "Gespeichert" }]) ∧
    (toastOf "Gespeichert, aber Service-Neustart fehlgeschlagen" "warning").className ≠
      (toastOf "Gespeichert" "success").className ∧
    (toastOf "Gespeichert, aber Service-Neustart fehlgeschlagen" "warning").background ≠
      (toastOf "Gespeichert" "success").background := by
  refine ⟨?_, ?_, ?_, ?_, by decide, by decide⟩
  · cases hr : data.restart_required <;> cases hf : data.restart_failed <;>
      simp [setConfigValue, hs, hr, hf]
  · cases hr : data.restart_required <;> cases hf : data.restart_failed <;>
      simp [setConfigValue, hs, hr, hf, showToast, toasts]
  · intro hr hf
    simp only [setConfigValue, hs, hr, hf, if_true, showToast, toasts, Option.getD_some]
    rfl
  · intro hr
    simp only [setConfigValue, hs, hr, if_true, showToast, toasts, Option.getD_some]
    rfl

theorem setConfigValue_success_toast_witness :
    (toasts (setConfigValue sampleConfigPage "MQTT_PORT" "1883" (.json sampleRestartFailed)).1 =
      toasts sampleConfigPage ++
        [{ className := "toast toast-warning", background := "#ffc107"
           textContent := "Gespeichert, aber Service-Neustart fehlgeschlagen" }]) ∧
    (toasts (setConfigValue sampleConfigPage "MQTT_PORT" "1883" (.json sampleNoRestart)).1 =
      toasts sampleConfigPage ++
        [{ className := "toast toast-success", background := "#28a745"
           textContent := "Gespeichert" }]) :=
  ⟨(setConfigValue_success_toast sampleConfigPage "MQTT_PORT" "1883" sampleRestartFailed
      (by decide)).2.2.1 (by decide) (by decide),
   (setConfigValue_success_toast sampleConfigPage "MQTT_PORT" "1883" sampleNoRestart
      (by decide)).2.2.2.1 (by decide)⟩

/-! ## C8: the dependency table when loading fails -/

/-- C8 (the code at the failing input): a body with `success` false, or one without the
software list, leaves the table body as it was, with no error row; a failed fetch and an
unparsable body do give the single error row spanning three columns. -/
theorem loadSystemInfoDependencies_unsuccessful_body :
    loadSystemInfoDependencies (some [.static "Lade..."])
        (.json { success := false, software := none }) = some [.static "Lade..."] ∧
    loadSystemInfoDependencies (some [.static "Lade..."])
        (.json { success := true, software := none }) = some [.static "Lade..."] ∧
    loadSystemInfoDependencies (some [.static "Lade..."])
        (.json { success := false, software := some [] }) = some [.static "Lade..."] ∧
    loadSystemInfoDependencies (some [.static "Lade..."]) .networkError =
      some [.message 3 "#e53e3e" "Fehler beim Laden"] ∧
    loadSystemInfoDependencies (some [.static "Lade..."]) .badJson =
      some [.message 3 "#e53e3e" "Fehler beim Laden"] := by
  decide

/-! ## C9: the cards of a loaded catalog -/

theorem titles_fold_frame (categories : List CategoryDesc) :
    ∀ p : StorePage,
      (categories.foldl (fun q category =>
        { q with titles :=
            setTitle (category.id ++ "-category-title") (categoryTitle category) q.titles })
        p).catalogData = p.catalogData ∧
      (categories.foldl (fun q category =>
        { q with titles :=
            setTitle (category.id ++ "-category-title") (categoryTitle category) q.titles })
        p).coreContainer = p.coreContainer ∧
      (categories.foldl (fun q category =>
        { q with titles :=
            setTitle (category.id ++ "-category-title") (categoryTitle category) q.titles })
        p).optionalContainer = p.optionalContainer ∧
      (categories.foldl (fun q category =>
        { q with titles :=
            setTitle (category.id ++ "-category-title") (categoryTitle category) q.titles })
        p).providersContainer = p.providersContainer := by
  induction categories with
  | nil => intro p; simp
  | cons c cs ih =>
    intro p
    simp only [List.foldl_cons]
    exact ih _

theorem render_three (p : StorePage) (catalog : Catalog) (mods : List (String × ModuleState))
    (hcat : p.catalogData = some catalog) (hm : catalog.modules = some mods)
    (hc : p.coreContainer.isSome = true) (ho : p.optionalContainer.isSome = true)
    (hp : p.providersContainer.isSome = true) :
    ∃ q, (do
        let p2 ← renderModulesByCategory p "core"
        let p3 ← renderModulesByCategory p2 "optional"
        renderModulesByCategory p3 "providers") = Except.ok q ∧
      q.coreContainer = some (categoryContent "core" mods) ∧
      q.optionalContainer = some (categoryContent "optional" mods) ∧
      q.providersContainer = some (categoryContent "providers" mods) := by
  obtain ⟨a, ha⟩ := Option.isSome_iff_exists.mp hc
  obtain ⟨b, hb⟩ := Option.isSome_iff_exists.mp ho
  obtain ⟨c, hc'⟩ := Option.isSome_iff_exists.mp hp
  refine ⟨{ p with
      coreContainer := some (categoryContent "core" mods)
      optionalContainer := some (categoryContent "optional" mods)
      providersContainer := some (categoryContent "providers" mods) }, ?_, rfl, rfl, rfl⟩
  simp [renderModulesByCategory, getContainer, setContainer, ha, hb, hc', hcat, hm, bind,
    Except.bind]

theorem loadStoreCatalog_success (p : StorePage) (data : CatalogResponse) (catalog : Catalog)
    (categories : List CategoryDesc) (mods : List (String × ModuleState))
    (hs : data.success = true) (hcat : data.catalog = some catalog)
    (hcs : catalog.categories = some categories) (hm : catalog.modules = some mods)
    (hc : p.coreContainer.isSome = true) (ho : p.optionalContainer.isSome = true)
    (hp : p.providersContainer.isSome = true) :
    (loadStoreCatalog p (.json data)).coreContainer = some (categoryContent "core" mods) ∧
    (loadStoreCatalog p (.json data)).optionalContainer =
      some (categoryContent "optional" mods) ∧
    (loadStoreCatalog p (.json data)).providersContainer =
      some (categoryContent "providers" mods) := by
  obtain ⟨f1, f2, f3, f4⟩ := titles_fold_frame categories { p with catalogData := some catalog }
  obtain ⟨q, hq, h1, h2, h3⟩ := render_three _ catalog mods f1 hm
    (by rw [f2]; exact hc) (by rw [f3]; exact ho) (by rw [f4]; exact hp)
  simp only [loadStoreCatalog, hs, if_true, renderStore, hcat, updateCategoryTitles, hcs]
  simp only [bind, Except.bind] at hq ⊢
  rw [hq]
  exact ⟨h1, h2, h3⟩

theorem countP_filter_id (categoryId moduleId : String) (mods : List (String × ModuleState)) :
    (mods.filter fun e => inCategory categoryId e.1).countP (fun e => decide (e.1 = moduleId)) =
      if inCategory categoryId moduleId = true then
        mods.countP (fun e => decide (e.1 = moduleId))
      else 0 := by
  induction mods with
  | nil => simp
  | cons e rest ih =>
    by_cases hid : e.1 = moduleId
    · by_cases hin : inCategory categoryId moduleId = true
      · simp [List.filter_cons, List.countP_cons, hid, hin] at ih ⊢
        exact ih
      · simp [List.filter_cons, List.countP_cons, hid, hin] at ih ⊢
        exact ih
    · by_cases hin : inCategory categoryId e.1 = true
      · simp only [List.filter_cons, hin, if_true, List.countP_cons, hid, decide_False,
          Bool.false_eq_true, if_false, Nat.add_zero]
        exact ih
      · simp only [List.filter_cons, hin, if_false, List.countP_cons, hid, decide_False,
          Bool.false_eq_true, Nat.add_zero]
        exact ih

theorem cardCount_categoryContent (categoryId moduleId : String)
    (mods : List (String × ModuleState)) :
    cardCount moduleId (some (categoryContent categoryId mods)) =
      (mods.filter fun e => inCategory categoryId e.1).countP
        (fun e => decide (e.1 = moduleId)) := by
  unfold categoryContent cardCount
  by_cases hlen : (mods.filter fun e => inCategory categoryId e.1).length = 0
  · have hnil := List.length_eq_zero.mp hlen
    simp [hnil]
  · simp only [hlen, if_false, Option.getD_some, List.countP_map]
    congr 1

theorem countP_key_one (mods : List (String × ModuleState)) (moduleId : String)
    (hn : (mods.map Prod.fst).Nodup) (hmem : moduleId ∈ mods.map Prod.fst) :
    mods.countP (fun e => decide (e.1 = moduleId)) = 1 := by
  have h1 := List.count_eq_one_of_mem hn hmem
  rw [List.count, List.countP_map] at h1
  rw [← h1]
  congr 1

/-! ### C9 -/

/-- C9, as stated, fails for a module whose identifier the filter does not know: `vinyl` is in
the catalog and gets no card in any of the three containers. -/
theorem renderStore_unknown_module_counterexample :
    "vinyl" ∈ (sampleCatalog.modules.getD []).map Prod.fst ∧
    ¬ (cardCount "vinyl" (loadStoreCatalog sampleStorePage
          (.json { success := true, catalog := some sampleCatalog, error := none })).coreContainer +
        cardCount "vinyl" (loadStoreCatalog sampleStorePage
          (.json { success := true, catalog := some sampleCatalog, error := none })).optionalContainer +
        cardCount "vinyl" (loadStoreCatalog sampleStorePage
          (.json { success := true, catalog := some sampleCatalog, error := none })).providersContainer
        = 1) := by
  decide

/-- C9 (amended): for every successfully loaded catalog, with the three containers on the
page, every module identifier of `catalog.modules` that is one of the eight identifiers the
filter knows gets exactly one card, in exactly one container: `core` in the core container,
`audio`, `dvd`, `bluray`, `metadata`, `mqtt` in the optional one, `musicbrainz`, `tmdb` in
the providers one; a module with any other identifier gets no card. -/
theorem renderStore_cards_by_identifier (p : StorePage) (data : CatalogResponse)
    (catalog : Catalog) (categories : List CategoryDesc) (mods : List (String × ModuleState))
    (moduleId : String)
    (hs : data.success = true) (hcat : data.catalog = some catalog)
    (hcs : catalog.categories = some categories) (hm : catalog.modules = some mods)
    (hc : p.coreContainer.isSome = true) (ho : p.optionalContainer.isSome = true)
    (hp : p.providersContainer.isSome = true)
    (hn : (mods.map Prod.fst).Nodup) (hmem : moduleId ∈ mods.map Prod.fst) :
    cardCount moduleId (loadStoreCatalog p (.json data)).coreContainer =
      (if moduleId = "core" then 1 else 0) ∧
    cardCount moduleId (loadStoreCatalog p (.json data)).optionalContainer =
      (if moduleId ∈ ["audio", "dvd", "bluray", "metadata", "mqtt"] then 1 else 0) ∧
    cardCount moduleId (loadStoreCatalog p (.json data)).providersContainer =
      (if moduleId ∈ ["musicbrainz", "tmdb"] then 1 else 0) ∧
    cardCount moduleId (loadStoreCatalog p (.json data)).coreContainer +
      cardCount moduleId (loadStoreCatalog p (.json data)).optionalContainer +
      cardCount moduleId (loadStoreCatalog p (.json data)).providersContainer =
      (if moduleId ∈ knownModuleIds then 1 else 0) := by
  obtain ⟨h1, h2, h3⟩ := loadStoreCatalog_success p data catalog categories mods hs hcat hcs hm
    hc ho hp
  have hone := countP_key_one mods moduleId hn hmem
  have e1 : cardCount moduleId (loadStoreCatalog p (.json data)).coreContainer =
      (if moduleId = "core" then 1 else 0) := by
    rw [h1, cardCount_categoryContent, countP_filter_id, hone]
    simp [inCategory]
  have e2 : cardCount moduleId (loadStoreCatalog p (.json data)).optionalContainer =
      (if moduleId ∈ ["audio", "dvd", "bluray", "metadata", "mqtt"] then 1 else 0) := by
    rw [h2, cardCount_categoryContent, countP_filter_id, hone]
    simp [inCategory]
  have e3 : cardCount moduleId (loadStoreCatalog p (.json data)).providersContainer =
      (if moduleId ∈ ["musicbrainz", "tmdb"] then 1 else 0) := by
    rw [h3, cardCount_categoryContent, countP_filter_id, hone]
    simp [inCategory]
  refine ⟨e1, e2, e3, ?_⟩
  rw [e1, e2, e3]
  by_cases k1 : moduleId = "core"
  · subst k1; decide
  by_cases k2 : moduleId ∈ ["audio", "dvd", "bluray", "metadata", "mqtt"]
  · have k3 : moduleId ∉ ["musicbrainz", "tmdb"] := by
      intro hmem'
      simp only [List.mem_cons, List.mem_singleton, List.not_mem_nil, or_false] at k2 hmem'
      rcases k2 with rfl | rfl | rfl | rfl | rfl <;> revert hmem' <;> decide
    have k4 : moduleId ∈ knownModuleIds := by
      simp only [knownModuleIds, List.mem_cons, List.mem_singleton, List.not_mem_nil,
        or_false] at k2 ⊢
      tauto
    simp [k1, k2, k3, k4]
  by_cases k3 : moduleId ∈ ["musicbrainz", "tmdb"]
  · have k4 : moduleId ∈ knownModuleIds := by
      simp only [knownModuleIds, List.mem_cons, List.mem_singleton, List.not_mem_nil,
        or_false] at k3 ⊢
      tauto
    simp [k1, k2, k3, k4]
  · have k4 : moduleId ∉ knownModuleIds := by
      simp only [knownModuleIds, List.mem_cons, List.mem_singleton, List.not_mem_nil,
        or_false] at k2 k3 ⊢
      tauto
    simp [k1, k2, k3, k4]

theorem renderStore_cards_by_identifier_witness :
    cardCount "audio" (loadStoreCatalog sampleStorePage (.json sampleCatalogResponse)).coreContainer =
      (if "audio" = "core" then 1 else 0) ∧
    cardCount "audio"
        (loadStoreCatalog sampleStorePage (.json sampleCatalogResponse)).optionalContainer =
      (if "audio" ∈ ["audio", "dvd", "bluray", "metadata", "mqtt"] then 1 else 0) ∧
    cardCount "audio"
        (loadStoreCatalog sampleStorePage (.json sampleCatalogResponse)).providersContainer =
      (if "audio" ∈ ["musicbrainz", "tmdb"] then 1 else 0) ∧
    cardCount "audio" (loadStoreCatalog sampleStorePage (.json sampleCatalogResponse)).coreContainer +
      cardCount "audio"
        (loadStoreCatalog sampleStorePage (.json sampleCatalogResponse)).optionalContainer +
      cardCount "audio"
        (loadStoreCatalog sampleStorePage (.json sampleCatalogResponse)).providersContainer =
      (if "audio" ∈ knownModuleIds then 1 else 0) :=
  renderStore_cards_by_identifier sampleStorePage sampleCatalogResponse sampleCatalog
    [{ id := "core", name := some "Core", name_de := some "Kern" }]
    [("core", { enabled := true, required := true }),
     ("audio", { enabled := false, required := false }),
     ("vinyl", { enabled := true, required := false })]
    "audio" (by decide) (by decide) (by decide) (by decide) (by decide) (by decide) (by decide)
    (by decide) (by decide)

/-! ## C15: the parts of a duration and the rendered fields -/

/-- C13: for every identifier and module state: with `required` true the card shows the
status text `Core` and the actions are a single disabled button without `onclick` (no
install, disable or details action), whatever `enabled` is; with `required` false the
status text is `Installiert` iff `enabled` is true and `Verfügbar` otherwise. -/
theorem createModuleCard_status (moduleId : String) (moduleData : ModuleState) :
    (moduleData.required = true →
      (createModuleCard moduleId moduleData).statusText = "Core" ∧
      createModuleActions moduleId moduleData =
        [{ className := "btn-secondary", disabled := true, onclick := none
           label := "Core-Modul" }] ∧
      (createModuleCard moduleId moduleData).actions =
        createModuleActions moduleId moduleData) ∧
    (moduleData.required = false →
      ((createModuleCard moduleId moduleData).statusText = "Installiert" ↔
        moduleData.enabled = true) ∧
      ((createModuleCard moduleId moduleData).statusText = "Verfügbar" ↔
        moduleData.enabled = false) ∧
      (createModuleCard moduleId moduleData).statusText =
        (if moduleData.enabled = true then "Installiert" else "Verfügbar")) := by
  refine ⟨fun hr => ?_, fun hr => ?_⟩
  · simp [createModuleCard, createModuleActions, hr]
  · cases he : moduleData.enabled <;> simp [createModuleCard, hr, he]

theorem createModuleCard_status_witness :
    ((createModuleCard "core" { enabled := false, required := true }).statusText = "Core" ∧
      createModuleActions "core" { enabled := false, required := true } =
        [{ className := "btn-secondary", disabled := true, onclick := none
           label := "Core-Modul" }] ∧
      (createModuleCard "core" { enabled := false, required := true }).actions =
        createModuleActions "core" { enabled := false, required := true }) ∧
    (((createModuleCard "dvd" { enabled := true, required := false }).statusText = "Installiert" ↔
        (ModuleState.mk true false).enabled = true) ∧
      ((createModuleCard "dvd" { enabled := true, required := false }).statusText = "Verfügbar" ↔
        (ModuleState.mk true false).enabled = false) ∧
      (createModuleCard "dvd" { enabled := true, required := false }).statusText =
        (if (ModuleState.mk true false).enabled = true then "Installiert" else "Verfügbar")) :=
  ⟨(createModuleCard_status "core" { enabled := false, required := true }).1 (by decide),
   (createModuleCard_status "dvd" { enabled := true, required := false }).2 (by decide)⟩

/-! ## C14: the value and the save trigger set by `initConfigField` -/

/-- C14, as stated, fails for a successful read that returns the empty text: the field gets
the default, not the value returned by the server. -/
theorem initConfigField_empty_value_counterexample :
    sampleEmptyValue.success = true ∧ sampleEmptyValue.value = some "" ∧
    ¬ ((initConfigField sampleConfigPage (some sampleInput) "MQTT_USER" "admin"
        (.json sampleEmptyValue)).2.map (fun el => el.value) = some "") := by
  decide

/-- C14 (amended): for every existing field, config key and default value, `initConfigField`
sets the field's value to the default when the read of the key fails (fetch or parse throws,
or `success` is false) and when it succeeds with a missing or empty value, and to the value
returned by the server when the read succeeds with a non-empty value; in every case exactly
one save trigger is added, `change` for a `SELECT` element and `blur` otherwise. -/
theorem initConfigField_value_and_trigger (p : ConfigPage) (el : FieldEl)
    (configKey defaultValue : String) (o : ConfigOutcome) :
    (readFails o = true →
      (initConfigField p (some el) configKey defaultValue o).2.map (fun e => e.value) =
        some defaultValue) ∧
    (∀ data v, o = .json data → data.success = true → data.value = some v → v ≠ "" →
      (initConfigField p (some el) configKey defaultValue o).2.map (fun e => e.value) =
        some v) ∧
    (∀ data, o = .json data → data.success = true →
      (data.value = none ∨ data.value = some "") →
      (initConfigField p (some el) configKey defaultValue o).2.map (fun e => e.value) =
        some defaultValue) ∧
    (initConfigField p (some el) configKey defaultValue o).2.map (fun e => e.listeners) =
      some (el.listeners ++ [(if el.tagName = "SELECT" then "change" else "blur", configKey)]) := by
  refine ⟨?_, ?_, ?_, ?_⟩
  · intro hf
    rcases o with m | m | data
    · simp [initConfigField, getConfigValue]
    · simp [initConfigField, getConfigValue]
    · have hs : data.success = false := by simpa [readFails] using hf
      simp [initConfigField, getConfigValue, hs]
  · rintro data v rfl hs hv hne
    simp [initConfigField, getConfigValue, hs, hv, strOr, hne]
  · rintro data rfl hs hv
    rcases hv with hv | hv <;> simp [initConfigField, getConfigValue, hs, hv, strOr]
  · simp [initConfigField]

theorem initConfigField_value_and_trigger_witness :
    ((initConfigField sampleConfigPage (some sampleInput) "DEFAULT_OUTPUT_DIR" "/media/iso"
        (.networkError "Failed to fetch")).2.map (fun e => e.value) = some "/media/iso") ∧
    ((initConfigField sampleConfigPage (some sampleSelect) "DEFAULT_OUTPUT_DIR" "/media/iso"
        (.json sampleValue)).2.map (fun e => e.value) = some "/srv/iso") ∧
    ((initConfigField sampleConfigPage (some sampleInput) "DEFAULT_OUTPUT_DIR" "/media/iso"
        (.json sampleEmptyValue)).2.map (fun e => e.value) = some "/media/iso") ∧
    ((initConfigField sampleConfigPage (some sampleSelect) "DEFAULT_OUTPUT_DIR" "/media/iso"
        (.json sampleValue)).2.map (fun e => e.listeners) =
      some (sampleSelect.listeners ++
        [(if sampleSelect.tagName = "SELECT" then "change" else "blur",
          "DEFAULT_OUTPUT_DIR")])) :=
  ⟨(initConfigField_value_and_trigger sampleConfigPage sampleInput "DEFAULT_OUTPUT_DIR"
      "/media/iso" (.networkError "Failed to fetch")).1 (by decide),
   (initConfigField_value_and_trigger sampleConfigPage sampleSelect "DEFAULT_OUTPUT_DIR"
      "/media/iso" (.json sampleValue)).2.1 sampleValue "/srv/iso" rfl (by decide) (by decide)
      (by decide),
   (initConfigField_value_and_trigger sampleConfigPage sampleInput "DEFAULT_OUTPUT_DIR"
      "/media/iso" (.json sampleEmptyValue)).2.2.1 sampleEmptyValue rfl (by decide)
      (Or.inr (by decide)),
   (initConfigField_value_and_trigger sampleConfigPage sampleSelect "DEFAULT_OUTPUT_DIR"
      "/media/iso" (.json sampleValue)).2.2.2⟩

/-! ## C11: the rows of the dependency table -/

theorem rowOfTool_of_find (softwareList : List Software) (tool : String × String)
    (e : Software) (h : softwareList.find? (fun s => s.name = tool.1) = some e) :
    RowOfTool softwareList tool
      (.tool (if notInstalled e then "row-inactive" else "") tool.2
        (if notInstalled e then "<em>Nicht installiert</em>"
         else strOfOpt e.installed_version)
        (getStatusBadge e)) := by
  obtain ⟨hp, pre, post, hsplit, hpre⟩ := List.find?_eq_some.mp h
  refine ⟨pre, e, post, hsplit, ?_, by simpa using hp, _, _, _, rfl, ?_⟩
  · intro x hx
    simpa using hpre x hx
  · cases hv : e.installed_version with
    | none =>
      simp only [getStatusBadge, notInstalled, hasInstalledVersion, hv, if_true]
      decide
    | some v =>
      by_cases hempty : v = ""
      · subst hempty
        simp only [getStatusBadge, notInstalled, hasInstalledVersion, hv]
        decide
      · simp only [getStatusBadge, notInstalled, hasInstalledVersion, hv, hempty,
          decide_False, Bool.false_eq_true, if_false, strOfOpt, ne_eq, not_false_eq_true,
          decide_True]
        refine ⟨by decide, by decide, by decide, fun _ => trivial,
          fun h => absurd h (by decide)⟩

theorem rows_of_tools (softwareList : List Software) (tools : List (String × String)) :
    List.Forall₂ (RowOfTool softwareList)
      (tools.filter fun tool => softwareList.any fun s => s.name = tool.1)
      (tools.filterMap fun tool =>
        match softwareList.find? fun s => s.name = tool.1 with
        | some software =>
          some (.tool (if notInstalled software then "row-inactive" else "") tool.2
            (if notInstalled software then "<em>Nicht installiert</em>"
             else strOfOpt software.installed_version)
            (getStatusBadge software))
        | none => none) := by
  induction tools with
  | nil => exact List.Forall₂.nil
  | cons t ts ih =>
    cases hfind : softwareList.find? (fun s => s.name = t.1) with
    | none =>
      have hany : (softwareList.any fun s => s.name = t.1) = false := by
        rw [List.any_eq_false]
        exact List.find?_eq_none.mp hfind
      simp only [List.filter_cons, hany, Bool.false_eq_true, if_false, List.filterMap_cons,
        hfind]
      exact ih
    | some e =>
      have hany : (softwareList.any fun s => s.name = t.1) = true := by
        obtain ⟨hp, pre, post, hsplit, _⟩ := List.find?_eq_some.mp hfind
        rw [List.any_eq_true]
        exact ⟨e, by simp [hsplit], hp⟩
      simp only [List.filter_cons, hany, if_true, List.filterMap_cons, hfind]
      exact List.Forall₂.cons (rowOfTool_of_find softwareList t e hfind) ih

theorem presentTools_eq_nil_iff (softwareList : List Software) :
    presentTools softwareList = [] ↔
      ∀ s ∈ softwareList, s.name ∉ coreTools.map Prod.fst := by
  unfold presentTools
  rw [List.filter_eq_nil_iff]
  constructor
  · intro h s hs hmem
    obtain ⟨t, ht, hname⟩ := List.mem_map.mp hmem
    exact h t ht (List.any_eq_true.mpr ⟨s, hs, by simp [hname]⟩)
  · intro h t ht hany
    obtain ⟨s, hs, hname⟩ := List.any_eq_true.mp hany
    have hname2 : s.name = t.1 := by simpa using hname
    exact h s hs (List.mem_map.mpr ⟨t, ht, hname2.symm⟩)

/-- C11: for every software list, with the table body on the page: the allow-list is
ddrescue, genisoimage, python, flask; the rows built correspond one to one and in allow-list
order to the allow-listed tools whose name occurs in the list, each built from the first
entry with that name, with the badge "installed" iff the entry has an installed version
and the row inactive iff the badge is "not installed"; these rows are the table body when
an allow-listed tool occurs, and a single "no information" row is when none occurs. -/
theorem updateSystemInfoDependencies_rows (old : List DepRow) (softwareList : List Software) :
    coreTools.map Prod.fst = ["ddrescue", "genisoimage", "python", "flask"] ∧
    List.Forall₂ (RowOfTool softwareList) (presentTools softwareList) (toolRows softwareList) ∧
    ((∃ s ∈ softwareList, s.name ∈ coreTools.map Prod.fst) →
      updateSystemInfoDependencies (some old) softwareList = some (toolRows softwareList)) ∧
    ((∀ s ∈ softwareList, s.name ∉ coreTools.map Prod.fst) →
      updateSystemInfoDependencies (some old) softwareList =
        some [.message 3 "#999" "Keine Informationen verfügbar"]) := by
  have hrows : List.Forall₂ (RowOfTool softwareList) (presentTools softwareList)
      (toolRows softwareList) := rows_of_tools softwareList coreTools
  have hlen := hrows.length_eq
  refine ⟨by decide, hrows, ?_, ?_⟩
  · intro hex
    have hne : presentTools softwareList ≠ [] := by
      intro hnil
      obtain ⟨s, hs, hmem⟩ := hex
      exact (presentTools_eq_nil_iff softwareList).mp hnil s hs hmem
    have hrne : toolRows softwareList ≠ [] := by
      intro hnil
      rw [hnil] at hlen
      exact hne (List.length_eq_zero.mp hlen)
    cases hr : toolRows softwareList with
    | nil => exact absurd hr hrne
    | cons r rs => simp [updateSystemInfoDependencies, hr]
  · intro hall
    have hnil := (presentTools_eq_nil_iff softwareList).mpr hall
    rw [hnil] at hlen
    have hr : toolRows softwareList = [] := List.length_eq_zero.mp hlen.symm
    simp [updateSystemInfoDependencies, hr, noInfoRow]

theorem updateSystemInfoDependencies_rows_witness :
    (updateSystemInfoDependencies (some [.static "Lade..."]) sampleSoftware =
      some (toolRows sampleSoftware)) ∧
    (updateSystemInfoDependencies (some [.static "Lade..."])
        [{ name := "bash", installed_version := some "5.2" }] =
      some [.message 3 "#999" "Keine Informationen verfügbar"]) :=
  ⟨(updateSystemInfoDependencies_rows [.static "Lade..."] sampleSoftware).2.2.1
      ⟨{ name := "python", installed_version := some "3.11.2" }, by decide, by decide⟩,
   (updateSystemInfoDependencies_rows [.static "Lade..."]
      [{ name := "bash", installed_version := some "5.2" }]).2.2.2 (by decide)⟩

/-! ## C12: exactly one entry is selected -/

theorem renderItems_length (sel : Int) (rs : List Release) :
    ∀ start, (renderItems sel start rs).length = rs.length := by
  induction rs with
  | nil => intro start; rfl
  | cons r rs ih => intro start; simp [renderItems, ih]

theorem renderItem_selected (sel : Int) (index : Nat) (r : Release) :
    (decide ("selected" ∈ (renderItem sel index r).classList) = decide ((index : Int) = sel)) ∧
    (renderItem sel index r).checked = decide ((index : Int) = sel) := by
  refine ⟨?_, rfl⟩
  by_cases h : (index : Int) = sel
  · simp only [renderItem, h, if_true]
    decide
  · simp only [renderItem, h, if_false]
    decide

theorem renderItems_counts (sel : Int) (rs : List Release) :
    ∀ start : Nat,
      selectedCount (renderItems sel start rs) =
        (if (start : Int) ≤ sel ∧ sel < (start : Int) + (rs.length : Int) then 1 else 0) ∧
      checkedCount (renderItems sel start rs) =
        (if (start : Int) ≤ sel ∧ sel < (start : Int) + (rs.length : Int) then 1 else 0) := by
  induction rs with
  | nil =>
    intro start
    have : ¬ ((start : Int) ≤ sel ∧ sel < (start : Int) + ((([] : List Release).length : Nat) : Int)) := by
      simp only [List.length_nil]
      omega
    simp only [this, if_false]
    exact ⟨rfl, rfl⟩
  | cons r rs ih =>
    intro start
    obtain ⟨ih1, ih2⟩ := ih (start + 1)
    obtain ⟨hsel, hchk⟩ := renderItem_selected sel start r
    simp only [selectedCount, checkedCount] at ih1 ih2 ⊢
    simp only [renderItems, List.countP_cons, ih1, ih2, hsel, hchk, List.length_cons]
    push_cast
    constructor <;> (split_ifs <;> simp_all <;> omega)

theorem checkRadio_checkedCount (xs : List ReleaseItem) :
    ∀ i, i < xs.length → checkedCount (checkRadio i xs) = 1 := by
  induction xs with
  | nil => intro i hi; simp at hi
  | cons x xs ih =>
    intro i hi
    cases i with
    | zero =>
      simp only [checkedCount, checkRadio, List.countP_cons, if_true, List.countP_map]
      have : List.countP ((fun el : ReleaseItem => el.checked) ∘
          fun y : ReleaseItem => { y with checked := false }) xs = 0 := by
        rw [List.countP_eq_zero]
        intro a _
        simp
      rw [this]
    | succ n =>
      have := ih n (by simpa using hi)
      simp only [checkedCount] at this
      simp [checkedCount, checkRadio, List.countP_cons, this]

theorem checkedCount_updateAt_markSelected (xs : List ReleaseItem) :
    ∀ i, checkedCount (updateAt markSelected i xs) = checkedCount xs := by
  induction xs with
  | nil => intro i; simp [updateAt]
  | cons x xs ih =>
    intro i
    cases i with
    | zero => simp [checkedCount, updateAt, List.countP_cons, markSelected]
    | succ n =>
      have := ih n
      simp only [checkedCount] at this
      simp [checkedCount, updateAt, List.countP_cons, this]

theorem checkedCount_map_clearSelected (xs : List ReleaseItem) :
    checkedCount (xs.map clearSelected) = checkedCount xs := by
  simp only [checkedCount, List.countP_map]
  congr 1
  funext el
  simp only [Function.comp, clearSelected]
  split <;> rfl

theorem changeHandler_listEl (s : MBState) (l : ReleaseList) (i : Nat)
    (hl : s.listEl = some l) (hi : i < l.items.length) :
    (changeHandler s i).listEl =
      some { l with items := updateAt markSelected i (l.items.map clearSelected) } := by
  have hget : l.items[i]? = some l.items[i] := List.getElem?_eq_getElem hi
  simp only [changeHandler, hl, hget]

theorem singleSelection_userSelect (s : MBState) (n i : Nat) (h : WellRendered s)
    (hs : SingleSelection s n) : SingleSelection (userSelect s i) n := by
  obtain ⟨l, hl, hlen, hsel, hchk⟩ := hs
  simp only [userSelect, hl]
  by_cases hi : i < l.items.length
  · simp only [hi, if_true]
    have hwr := wellRendered_checkRadio s l i h hl
    have hi2 : i < (checkRadio i l.items).length := by simpa [checkRadio_length] using hi
    obtain ⟨l2, hl2, hlen2, hsel2, _, _⟩ := changeHandler_spec _ hwr
      { l with items := checkRadio i l.items } rfl i hi2
    have hl3 := changeHandler_listEl
      { s with listEl := some { l with items := checkRadio i l.items } }
      { l with items := checkRadio i l.items } i rfl hi2
    rw [hl3] at hl2
    simp only [Option.some.injEq] at hl2
    refine ⟨l2, ?_, ?_, hsel2, ?_⟩
    · rw [hl3, hl2]
    · rw [hlen2]
      simp [checkRadio_length, hlen]
    · rw [← hl2]
      simp only [checkedCount_updateAt_markSelected, checkedCount_map_clearSelected]
      exact checkRadio_checkedCount l.items i hi
  · simp only [hi, if_false]
    exact ⟨l, hl, hlen, hsel, hchk⟩

theorem wellRendered_render (s : MBState) (data : StatusPayload) (m : String)
    (l0 : ReleaseList) (hm : s.modal = some m) (hl : s.listEl = some l0) :
    WellRendered (showMusicBrainzModal s data) := by
  simp only [showMusicBrainzModal, hm, hl]
  refine ⟨by simp, ?_⟩
  intro l hl' k it hk
  simp only [Option.some.injEq] at hl'
  subst hl'
  have := renderItems_getElem? _ _ 0 k it hk
  simpa using this

theorem singleSelection_selections (selections : List Nat) (n : Nat) :
    ∀ s, WellRendered s → SingleSelection s n →
      SingleSelection (selections.foldl userSelect s) n := by
  induction selections with
  | nil => intro s _ hs; exact hs
  | cons i rest ih =>
    intro s h hs
    exact ih _ (wellRendered_userSelect s i h) (singleSelection_userSelect s n i h hs)

/-- C12, as stated, fails for a payload whose `selected_index` is no position of its release
list: after rendering, no item carries `selected` and no radio input is checked. -/
theorem render_out_of_range_counterexample :
    sampleOutOfRangePayload.status = "waiting_user_input" ∧
    sampleOutOfRangePayload.releases = some sampleReleases ∧
    sampleReleases ≠ [] ∧
    ¬ SingleSelection (pollReply samplePage (.json sampleOutOfRangePayload))
        sampleReleases.length := by
  refine ⟨by decide, by decide, by decide, ?_⟩
  rintro ⟨l, hl, _, hsel, _⟩
  have hl2 : (pollReply samplePage (.json sampleOutOfRangePayload)).listEl =
      some ⟨renderItems 5 0 sampleReleases, true⟩ := by decide
  rw [hl2] at hl
  simp only [Option.some.injEq] at hl
  subst hl
  revert hsel
  decide

/-- C12 (amended): for every "waiting for input" payload with a non-empty release list
whose `selected_index` (0 when absent) is a position of that list, on a page with the modal
and the list element, immediately after `showMusicBrainzModal` has rendered it exactly one
release item carries `selected` and exactly one radio input is checked, and this stays true
after any sequence of user selections. -/
theorem single_selection_after_render (s : MBState) (data : StatusPayload)
    (rs : List Release) (k : Nat) (selections : List Nat)
    (hm : s.modal.isSome = true) (hl : s.listEl.isSome = true)
    (hw : data.status = "waiting_user_input") (hr : data.releases = some rs)
    (hk : data.selected_index.getD 0 = (k : Int)) (hlt : k < rs.length) :
    SingleSelection (pollReply s (.json data)) rs.length ∧
    SingleSelection (selections.foldl userSelect (pollReply s (.json data))) rs.length := by
  obtain ⟨m, hm'⟩ := Option.isSome_iff_exists.mp hm
  obtain ⟨l0, hl'⟩ := Option.isSome_iff_exists.mp hl
  have hidx : (match data.selected_index with
      | some j => if j = 0 then 0 else j
      | none => 0) = (k : Int) := by
    cases hsel : data.selected_index with
    | none => simpa [hsel] using hk
    | some j =>
      have hj : j = (k : Int) := by simpa [hsel] using hk
      show (if j = 0 then 0 else j) = (k : Int)
      split_ifs with h0
      · omega
      · exact hj
  have hwr : WellRendered (pollReply s (.json data)) := by
    simp only [pollReply, hw, if_true]
    exact wellRendered_render _ data m l0 hm' hl'
  have hone : SingleSelection (pollReply s (.json data)) rs.length := by
    obtain ⟨c1, c2⟩ := renderItems_counts (k : Int) rs 0
    have hcond : ((0 : Nat) : Int) ≤ (k : Int) ∧
        (k : Int) < ((0 : Nat) : Int) + (rs.length : Int) := by omega
    simp only [hcond, and_self, if_true] at c1 c2
    refine ⟨⟨renderItems (k : Int) 0 rs, true⟩, ?_, renderItems_length _ _ 0, c1, c2⟩
    simp only [pollReply, hw, if_true, showMusicBrainzModal, hm', hl', hr, hidx,
      Option.getD_some]
  exact ⟨hone, singleSelection_selections selections rs.length _ hwr hone⟩

theorem single_selection_after_render_witness :
    SingleSelection (pollReply samplePage (.json samplePayload)) sampleReleases.length ∧
    SingleSelection ([1, 7, 0].foldl userSelect (pollReply samplePage (.json samplePayload)))
      sampleReleases.length :=
  single_selection_after_render samplePage samplePayload sampleReleases 0 [1, 7, 0]
    (by decide) (by decide) (by decide) (by decide) (by decide) (by decide)

end Disk2iso
